import Mathlib

/-!
# eks-webhook-proxy: a verification development

A shallow embedding of the proxy reconciliation engine of `eks-webhook-proxy`
(`pkg/proxy`, `pkg/nodecache`, `pkg/utils`, `config`, and the CRD / mutating /
endpoint-slice controllers) together with theorems about it.

Conventions of the embedding

* A Go `string` is a sequence of bytes (`GoString`); `len` is `List.length`
  and `s[:n]` is `List.take n`.
* Go `int` values that can be negative are `Int`.
* A Go run-time panic (slice bound out of range, nil dereference) is an
  explicit outcome: `Option.none` for the pure naming function, `Res.panic`
  for the stateful engine.
* The cluster API is an explicit state (`ApiServer`) threaded through every
  operation; a `Client` carries a fault plan, so that every request may fail.
-/

namespace EksWebhookProxy

/-! ## Strings -/

/-- A Go string: an immutable sequence of bytes. -/
abbrev GoString := List UInt8

/-- The bytes (UTF-8) of a string literal. -/
def str (s : String) : GoString := s.toList.flatMap String.utf8EncodeChar

/-- Go `strings.TrimRight(s, cutset)` for a cutset of ASCII bytes: all trailing
bytes contained in the cutset are removed. -/
def TrimRight (s : GoString) (cutset : GoString) : GoString :=
  s.rdropWhile fun b => decide (b ∈ cutset)

/-! ## SHA-256 (`crypto/sha256`) and hex encoding (`encoding/hex`)

32-bit words are natural numbers reduced modulo `2 ^ 32`. -/

namespace Sha256

/-- Reduce to a 32-bit word. -/
def w32 (x : Nat) : Nat := x % 2 ^ 32

/-- Rotate a 32-bit word right by `n` bits. -/
def rotr (x n : Nat) : Nat := w32 ((x >>> n) ||| (x <<< (32 - n)))

/-- The round constants: the first 32 bits of the fractional parts of the cube
roots of the first 64 primes. -/
def K : List Nat := [
  1116352408, 1899447441, 3049323471, 3921009573, 961987163, 1508970993,
  2453635748, 2870763221, 3624381080, 310598401, 607225278, 1426881987,
  1925078388, 2162078206, 2614888103, 3248222580, 3835390401, 4022224774,
  264347078, 604807628, 770255983, 1249150122, 1555081692, 1996064986,
  2554220882, 2821834349, 2952996808, 3210313671, 3336571891, 3584528711,
  113926993, 338241895, 666307205, 773529912, 1294757372, 1396182291,
  1695183700, 1986661051, 2177026350, 2456956037, 2730485921, 2820302411,
  3259730800, 3345764771, 3516065817, 3600352804, 4094571909, 275423344,
  430227734, 506948616, 659060556, 883997877, 958139571, 1322822218,
  1537002063, 1747873779, 1955562222, 2024104815, 2227730452, 2361852424,
  2428436474, 2756734187, 3204031479, 3329325298]

/-- The eight working words of the hash state. -/
structure Digest where
  a : Nat
  b : Nat
  c : Nat
  d : Nat
  e : Nat
  f : Nat
  g : Nat
  h : Nat
  deriving DecidableEq, Repr

/-- The initial hash value: the first 32 bits of the fractional parts of the
square roots of the first 8 primes. -/
def init : Digest :=
  ⟨1779033703, 3144134277, 1013904242, 2773480762,
   1359893119, 2600822924, 528734635, 1541459225⟩

/-- One round of the compression function, on the pair (round constant,
schedule word). -/
def step (s : Digest) (kw : Nat × Nat) : Digest :=
  match s with
  | ⟨a, b, c, d, e, f, g, h⟩ =>
    let t1 := w32 (h + ((rotr e 6) ^^^ (rotr e 11) ^^^ (rotr e 25))
      + ((e &&& f) ^^^ ((e ^^^ 4294967295) &&& g)) + kw.1 + kw.2)
    let t2 := w32 (((rotr a 2) ^^^ (rotr a 13) ^^^ (rotr a 22))
      + ((a &&& b) ^^^ (a &&& c) ^^^ (b &&& c)))
    ⟨w32 (t1 + t2), a, b, c, w32 (d + t1), e, f, g⟩

/-- Extend the message schedule by `n` words; `ws` holds the words computed so
far, most recent first. -/
def schedule : Nat → List Nat → List Nat
  | 0, ws => ws
  | n + 1, ws =>
    match ws with
    | _ :: w2 :: _ :: _ :: _ :: _ :: w7 :: _ :: _ :: _ :: _ :: _ :: _ :: _ :: w15 :: w16 :: _ =>
      let s0 := (rotr w15 7) ^^^ (rotr w15 18) ^^^ (w15 >>> 3)
      let s1 := (rotr w2 17) ^^^ (rotr w2 19) ^^^ (w2 >>> 10)
      schedule n (w32 (w16 + s0 + w7 + s1) :: ws)
    | _ => ws

/-- Compress one 16-word block into the state. -/
def compress (s : Digest) (block : List Nat) : Digest :=
  let ws := (schedule 48 block.reverse).reverse
  let r := (K.zip ws).foldl step s
  ⟨w32 (s.a + r.a), w32 (s.b + r.b), w32 (s.c + r.c), w32 (s.d + r.d),
   w32 (s.e + r.e), w32 (s.f + r.f), w32 (s.g + r.g), w32 (s.h + r.h)⟩

/-- Big-endian word from four bytes. -/
def word (b0 b1 b2 b3 : UInt8) : Nat :=
  b0.toNat * 2 ^ 24 + b1.toNat * 2 ^ 16 + b2.toNat * 2 ^ 8 + b3.toNat

/-- The big-endian words of a byte string. -/
def wordsOf : List UInt8 → List Nat
  | b0 :: b1 :: b2 :: b3 :: rest => word b0 b1 b2 b3 :: wordsOf rest
  | _ => []

/-- Split a word list in `n` blocks of 16 words. -/
def blocks : Nat → List Nat → List (List Nat)
  | 0, _ => []
  | n + 1, ws => ws.take 16 :: blocks n (ws.drop 16)

/-- The `n` low bytes of `x`, most significant first. -/
def be (n : Nat) (x : Nat) : List UInt8 :=
  (List.range n).reverse.map fun i => UInt8.ofNat ((x >>> (8 * i)) % 256)

/-- Message padding: a `0x80` byte, zeros up to 56 modulo 64, and the bit length
as a 64-bit big-endian number. -/
def pad (msg : List UInt8) : List UInt8 :=
  let l := msg.length
  let k := (119 - l % 64) % 64
  msg ++ [0x80] ++ List.replicate k 0 ++ be 8 (8 * l)

/-- Go `sha256.Sum256`: the 32-byte digest of a message. -/
def Sum256 (msg : List UInt8) : List UInt8 :=
  let p := pad msg
  let d := (blocks (p.length / 64) (wordsOf p)).foldl compress init
  be 4 d.a ++ be 4 d.b ++ be 4 d.c ++ be 4 d.d ++ be 4 d.e ++ be 4 d.f ++ be 4 d.g ++ be 4 d.h

end Sha256

/-- One lower-case hexadecimal digit. -/
def hexDigit (n : Nat) : UInt8 :=
  if n < 10 then UInt8.ofNat (48 + n) else UInt8.ofNat (87 + n)

/-- Go `hex.EncodeToString`: two lower-case hex digits per byte. -/
def EncodeToString (bs : List UInt8) : GoString :=
  bs.flatMap fun b => [hexDigit (b.toNat / 16), hexDigit (b.toNat % 16)]

/-! ## The naming function (`pkg/proxy/proxy.go`) -/

/-- The constant `proxySuffix`. -/
def proxySuffix : GoString := str "eks-proxy"

/-- The constant `maxNameLen`. -/
def maxNameLen : Int := 63

/-- The constant `serviceNameHashLen` (`pkg/proxy/service.go`). -/
def serviceNameHashLen : Int := 8

/-- The hexadecimal SHA-256 digest of a name, `hex.EncodeToString(sum[:])`. -/
def hexSum (serviceName : GoString) : GoString :=
  EncodeToString (Sha256.Sum256 serviceName)

/-- The function `getProxyName`. The result is `none` when the slice expression
`hex.EncodeToString(sum[:])[:hashLen]` panics (bound out of range). -/
def getProxyName (serviceName : GoString) (hashLen : Int) : Option GoString :=
  let hex := hexSum serviceName
  if hashLen < 0 ∨ (hex.length : Int) < hashLen then none
  else
    let hash := hex.take hashLen.toNat
    let suffix := str "-" ++ proxySuffix ++ str "-" ++ hash
    let maxPrefixLen : Int := maxNameLen - (suffix.length : Int)
    if maxPrefixLen < 1 then
      let short := proxySuffix ++ str "-" ++ hash
      if maxNameLen < (short.length : Int) then
        some (short.take maxNameLen.toNat)
      else
        some short
    else
      let name := serviceName
      let name := if maxPrefixLen < (name.length : Int) then name.take maxPrefixLen.toNat else name
      let name := TrimRight name (str "-")
      some (name ++ suffix)

/-! ## Label keys and constants (`pkg/utils/utils.go`) -/

def LabelEdpointSliceManagedBy : GoString := str "endpointslice.kubernetes.io/managed-by"
def LabelManagedBy : GoString := str "proxy.kubernetes.io/managed-by"
def LabelPartOf : GoString := str "app.kubernetes.io/part-of"
def LabelAppInstance : GoString := str "app.kubernetes.io/instance"
def LabelServiceProxyOf : GoString := str "service.infra.io/proxy-of"
def LabelWebhookPort : GoString := str "service.infra.io/webhook-port"
def LabelServiceProxyIgnoreRestriction : GoString := str "service.infra.io/proxy-ignore-restriction"
def LabelEndpointSliceServiceName : GoString := str "kubernetes.io/service-name"
def LabelKeyEndpointSliceController : GoString := str "endpointslice-controller.k8s.io"
def ControllerName : GoString := str "eks-webhook-proxy"
def DefaultWebhookPort : Int := 443

/-! ## Go maps

A `map[string]string` is an association list; a key is looked up from the
front. The nil map and the empty map are both `[]`: objects read from the
cluster API never carry an empty non-nil map. -/

/-- A Go `map[string]string`. -/
abbrev GoMap := List (GoString × GoString)

/-- The assignment `m[k] = v`. -/
def GoMap.set (m : GoMap) (k v : GoString) : GoMap :=
  if m.any (fun kv => kv.1 == k) then m.map (fun kv => if kv.1 == k then (k, v) else kv)
  else m ++ [(k, v)]

/-- The lookup `v, ok := m[k]`. -/
def GoMap.get (m : GoMap) (k : GoString) : Option GoString := List.lookup k m

/-! ## Configuration (`config/config.go`) -/

/-- The struct `config.Proxy`. -/
structure ProxyConfig where
  Restricted : Bool
  AllowedSrcCIDRs : List GoString
  deriving DecidableEq, Repr

/-- The struct `config.Config`. -/
structure Config where
  Proxy : ProxyConfig
  deriving DecidableEq, Repr

/-! ## Node address cache (`pkg/nodecache/nodecache.go`) -/

/-- The struct `NodeIPCache`: node name to internal IP. The lock is not
modelled; every operation is atomic. -/
structure NodeIPCache where
  data : GoMap
  deriving DecidableEq, Repr

def NewNodeIPCache : NodeIPCache := ⟨[]⟩

def NodeIPCache.Set (c : NodeIPCache) (nodeName ip : GoString) : NodeIPCache :=
  ⟨GoMap.set c.data nodeName ip⟩

def NodeIPCache.Delete (c : NodeIPCache) (nodeName : GoString) : NodeIPCache :=
  ⟨c.data.filter fun kv => !(kv.1 == nodeName)⟩

def NodeIPCache.Get (c : NodeIPCache) (nodeName : GoString) : GoString × Bool :=
  match GoMap.get c.data nodeName with
  | some ip => (ip, true)
  | none => ([], false)

/-! ## Cluster objects

Only the fields that the engine reads or writes are kept. -/

structure NamespacedName where
  Namespace : GoString
  Name : GoString
  deriving DecidableEq, Repr

/-- The kinds of object the engine and its watchers touch. -/
inductive Kind
  | Service
  | Endpoints
  | EndpointSlice
  | NetworkPolicy
  | CustomResourceDefinition
  | MutatingWebhookConfiguration
  deriving DecidableEq, Repr

structure OwnerReference where
  Kind : Kind
  Name : GoString
  Controller : Bool
  deriving DecidableEq, Repr

structure ObjectMeta where
  Name : GoString
  Namespace : GoString
  Labels : GoMap
  OwnerReferences : List OwnerReference
  deriving DecidableEq, Repr

def ObjectMeta.key (m : ObjectMeta) : NamespacedName := ⟨m.Namespace, m.Name⟩

/-- The type `admissionv1.ServiceReference` (also used for the reference of a
conversion webhook). `Port` is a pointer in Go. -/
structure ServiceReference where
  Namespace : GoString
  Name : GoString
  Port : Option Int
  deriving DecidableEq, Repr

inductive ServiceType
  | ClusterIP
  | NodePort
  | LoadBalancer
  | ExternalName
  deriving DecidableEq, Repr

inductive ServiceExternalTrafficPolicy
  | unset
  | Local
  | Cluster
  deriving DecidableEq, Repr

/-- The type `intstr.IntOrString`. -/
inductive IntOrString
  | Int (IntVal : Int)
  | String (StrVal : GoString)
  deriving DecidableEq, Repr

structure ServicePort where
  Name : GoString
  Protocol : GoString
  Port : Int
  TargetPort : IntOrString
  NodePort : Int
  deriving DecidableEq, Repr

structure ServiceSpec where
  Type_ : ServiceType
  Ports : List ServicePort
  Selector : GoMap
  ExternalTrafficPolicy : ServiceExternalTrafficPolicy
  deriving DecidableEq, Repr

structure Service extends ObjectMeta where
  Spec : ServiceSpec
  deriving DecidableEq, Repr

/-- The core `v1.Endpoints` object of a service (subsets are not read). -/
structure Endpoints extends ObjectMeta where
  deriving DecidableEq, Repr

structure EndpointConditions where
  Ready : Option Bool
  Serving : Option Bool
  Terminating : Option Bool
  deriving DecidableEq, Repr

structure Endpoint where
  Addresses : List GoString
  Conditions : EndpointConditions
  NodeName : Option GoString
  deriving DecidableEq, Repr

structure EndpointPort where
  Name : Option GoString
  Protocol : Option GoString
  Port : Option Int
  deriving DecidableEq, Repr

inductive AddressType
  | unset
  | IPv4
  | IPv6
  | FQDN
  deriving DecidableEq, Repr

structure EndpointSlice extends ObjectMeta where
  AddressType : AddressType
  Endpoints : List Endpoint
  Ports : List EndpointPort
  deriving DecidableEq, Repr

structure IPBlock where
  CIDR : GoString
  deriving DecidableEq, Repr

structure NetworkPolicyPeer where
  IPBlock : Option IPBlock
  deriving DecidableEq, Repr

structure NetworkPolicyPort where
  Protocol : Option GoString
  Port : Option IntOrString
  deriving DecidableEq, Repr

structure NetworkPolicyIngressRule where
  Ports : List NetworkPolicyPort
  From : List NetworkPolicyPeer
  deriving DecidableEq, Repr

structure LabelSelector where
  MatchLabels : GoMap
  deriving DecidableEq, Repr

structure NetworkPolicySpec where
  PodSelector : LabelSelector
  Ingress : List NetworkPolicyIngressRule
  deriving DecidableEq, Repr

structure NetworkPolicy extends ObjectMeta where
  Spec : NetworkPolicySpec
  deriving DecidableEq, Repr

/-- A custom resource definition; `ConversionWebhookService` is the value of
`Spec.Conversion.Webhook.ClientConfig.Service`, `none` when any pointer on that
path is nil. -/
structure CustomResourceDefinition where
  Name : GoString
  ConversionWebhookService : Option ServiceReference
  deriving DecidableEq, Repr

/-- One entry of a webhook configuration, with `ClientConfig.Service`. -/
structure MutatingWebhook where
  Name : GoString
  ClientConfigService : Option ServiceReference
  deriving DecidableEq, Repr

structure MutatingWebhookConfiguration where
  Name : GoString
  Webhooks : List MutatingWebhook
  deriving DecidableEq, Repr

/-! ## Errors and outcomes -/

/-- The reason of an API status error. -/
inductive StatusReason
  | NotFound
  | AlreadyExists
  | Conflict
  | Timeout
  | Forbidden
  | TooManyRequests
  | InternalError
  deriving DecidableEq, Repr

/-- A Go `error` value (non-nil). -/
inductive GoError
  | Status (reason : StatusReason)
  | ErrServiceHasNoPort
  | ErrServiceNotFound
  | ErrEndpointSliceNotFound
  | AlreadyOwned
  | MutateChangedKey
  | Errorf (msg : String)
  | Wrap (msg : String) (err : GoError)
  deriving DecidableEq, Repr

/-- The chain `errors.As` walks to find an API status error. -/
def GoError.statusReason : GoError → Option StatusReason
  | .Status r => some r
  | .Wrap _ e => e.statusReason
  | _ => none

/-- The predicate `apierrors.IsNotFound`. -/
def IsNotFound (err : GoError) : Bool := err.statusReason == some .NotFound

/-- The predicate `apierrors.IsAlreadyExists`. -/
def IsAlreadyExists (err : GoError) : Bool := err.statusReason == some .AlreadyExists

/-- The predicate `errors.Is(err, target)` for a sentinel target. -/
def GoError.Is : GoError → GoError → Bool
  | .Wrap msg e, target => (GoError.Wrap msg e == target) || e.Is target
  | e, target => e == target

/-- Outcome of a call: a value, a Go error, or a run-time panic. -/
inductive Res (α : Type) where
  | ok (a : α)
  | err (e : GoError)
  | panic
  deriving DecidableEq, Repr

/-- A computation on a state `σ`: it always terminates with an outcome and a
new state (writes made before an error stay made). -/
def M (σ : Type) (α : Type) : Type := σ → Res α × σ

def M.pure {σ α : Type} (a : α) : M σ α := fun s => (.ok a, s)

def M.bind {σ α β : Type} (m : M σ α) (f : α → M σ β) : M σ β := fun s =>
  match m s with
  | (.ok a, s1) => f a s1
  | (.err e, s1) => (.err e, s1)
  | (.panic, s1) => (.panic, s1)

instance {σ : Type} : Monad (M σ) where
  pure := M.pure
  bind := M.bind

/-- The statement `return err`. -/
def throwErr {σ α : Type} (e : GoError) : M σ α := fun s => (.err e, s)

/-- A run-time panic. -/
def goPanic {σ α : Type} : M σ α := fun s => (.panic, s)

/-- Run a call and hand its `error` result to the caller (`x, err := f()`). -/
def attempt {σ α : Type} (m : M σ α) : M σ (Except GoError α) := fun s =>
  match m s with
  | (.ok a, s1) => (.ok (.ok a), s1)
  | (.err e, s1) => (.ok (.error e), s1)
  | (.panic, s1) => (.panic, s1)

/-- The helper `client.IgnoreNotFound` followed by `return`. -/
def IgnoreNotFound {σ : Type} (err : GoError) : M σ Unit :=
  if IsNotFound err then pure () else throwErr err

/-- The helper `client.IgnoreAlreadyExists` followed by `return`. -/
def IgnoreAlreadyExists {σ : Type} (err : GoError) : M σ Unit :=
  if IsAlreadyExists err then pure () else throwErr err

/-! ## The cluster API

The state of the API server is the list of stored objects of each kind, the
next free node port, and the history of the requests it has received. A
`Client` carries a fault plan: the request number and the request decide
whether the request fails before it reaches the store (timeout, conflict,
throttling, ...). -/

inductive Verb
  | get
  | list
  | create
  | update
  | delete
  deriving DecidableEq, Repr

/-- One request to the API server; `Selector` is the label selector of a list
request. -/
structure Request where
  Verb : Verb
  Kind : Kind
  Namespace : GoString
  Name : GoString
  Selector : GoMap
  deriving DecidableEq, Repr

structure ApiServer where
  Services : List Service
  Endpoints : List Endpoints
  EndpointSlices : List EndpointSlice
  NetworkPolicies : List NetworkPolicy
  CustomResourceDefinitions : List CustomResourceDefinition
  MutatingWebhookConfigurations : List MutatingWebhookConfiguration
  nextNodePort : Int
  requests : List Request
  deriving DecidableEq, Repr

/-- The handle `client.Client`. `fault n r` is the error with which request `r`
fails when it is the request number `n` (counted from 0), if it fails. -/
structure Client where
  fault : Nat → Request → Option GoError

/-- A client whose requests always reach the store. -/
def Client.reliable : Client := ⟨fun _ _ => none⟩

/-- Issue a request: it is recorded, then either fails by the fault plan or is
served from the store. -/
def Client.request {α : Type} (c : Client) (r : Request)
    (serve : ApiServer → Res α × ApiServer) : M ApiServer α := fun s =>
  let s1 := { s with requests := s.requests ++ [r] }
  match c.fault s.requests.length r with
  | some e => (.err e, s1)
  | none => serve s1

/-- Label selection `client.MatchingLabels`: every selected key carries the
selected value. -/
def matchesLabels (sel : GoMap) (labels : GoMap) : Bool :=
  sel.all fun kv => GoMap.get labels kv.1 == some kv.2

/-- Node ports are allocated for services of these types. -/
def needsNodePort (t : ServiceType) : Bool :=
  t == .NodePort || t == .LoadBalancer

/-- Server side: give every port without a node port the next free one. -/
def allocNodePorts : Int → List ServicePort → List ServicePort × Int
  | next, [] => ([], next)
  | next, p :: ps =>
    if p.NodePort = 0 then
      (({ p with NodePort := next } :: (allocNodePorts (next + 1) ps).1),
        (allocNodePorts (next + 1) ps).2)
    else
      (p :: (allocNodePorts next ps).1, (allocNodePorts next ps).2)

/-- Server side, on update: a port without a node port keeps the node port that
the stored object has allocated for the port of that name. -/
def inheritNodePorts (old new : List ServicePort) : List ServicePort :=
  new.map fun p =>
    if p.NodePort = 0 then
      match old.find? (fun o => o.Name == p.Name) with
      | some o => { p with NodePort := o.NodePort }
      | none => p
    else p

def Client.GetService (c : Client) (key : NamespacedName) : M ApiServer Service :=
  c.request ⟨.get, .Service, key.Namespace, key.Name, []⟩ fun s =>
    match s.Services.find? (fun o => o.key == key) with
    | some o => (.ok o, s)
    | none => (.err (.Status .NotFound), s)

def Client.CreateService (c : Client) (obj : Service) : M ApiServer Service :=
  c.request ⟨.create, .Service, obj.Namespace, obj.Name, []⟩ fun s =>
    if s.Services.any (fun o => o.key == obj.key) then (.err (.Status .AlreadyExists), s)
    else if needsNodePort obj.Spec.Type_ then
      let stored : Service :=
        { obj with Spec := { obj.Spec with Ports := (allocNodePorts s.nextNodePort obj.Spec.Ports).1 } }
      (.ok stored, { s with Services := s.Services ++ [stored],
                            nextNodePort := (allocNodePorts s.nextNodePort obj.Spec.Ports).2 })
    else (.ok obj, { s with Services := s.Services ++ [obj] })

def Client.UpdateService (c : Client) (obj : Service) : M ApiServer Service :=
  c.request ⟨.update, .Service, obj.Namespace, obj.Name, []⟩ fun s =>
    match s.Services.find? (fun o => o.key == obj.key) with
    | none => (.err (.Status .NotFound), s)
    | some old =>
      if needsNodePort obj.Spec.Type_ then
        let ports := inheritNodePorts old.Spec.Ports obj.Spec.Ports
        let stored : Service :=
          { obj with Spec := { obj.Spec with Ports := (allocNodePorts s.nextNodePort ports).1 } }
        (.ok stored,
          { s with Services := s.Services.map (fun o => if o.key == obj.key then stored else o),
                   nextNodePort := (allocNodePorts s.nextNodePort ports).2 })
      else
        (.ok obj, { s with Services := s.Services.map (fun o => if o.key == obj.key then obj else o) })

/-- List services of a namespace by labels. -/
def Client.ListServices (c : Client) (ns : GoString) (sel : GoMap) : M ApiServer (List Service) :=
  c.request ⟨.list, .Service, ns, [], sel⟩ fun s =>
    (.ok (s.Services.filter fun o => o.Namespace == ns && matchesLabels sel o.Labels), s)

def Client.GetEndpoints (c : Client) (key : NamespacedName) : M ApiServer Endpoints :=
  c.request ⟨.get, .Endpoints, key.Namespace, key.Name, []⟩ fun s =>
    match s.Endpoints.find? (fun o => o.key == key) with
    | some o => (.ok o, s)
    | none => (.err (.Status .NotFound), s)

def Client.DeleteEndpoints (c : Client) (obj : Endpoints) : M ApiServer Unit :=
  c.request ⟨.delete, .Endpoints, obj.Namespace, obj.Name, []⟩ fun s =>
    if s.Endpoints.any (fun o => o.key == obj.key) then
      (.ok (), { s with Endpoints := s.Endpoints.filter fun o => !(o.key == obj.key) })
    else (.err (.Status .NotFound), s)

def Client.GetEndpointSlice (c : Client) (key : NamespacedName) : M ApiServer EndpointSlice :=
  c.request ⟨.get, .EndpointSlice, key.Namespace, key.Name, []⟩ fun s =>
    match s.EndpointSlices.find? (fun o => o.key == key) with
    | some o => (.ok o, s)
    | none => (.err (.Status .NotFound), s)

def Client.ListEndpointSlices (c : Client) (ns : GoString) (sel : GoMap) :
    M ApiServer (List EndpointSlice) :=
  c.request ⟨.list, .EndpointSlice, ns, [], sel⟩ fun s =>
    (.ok (s.EndpointSlices.filter fun o => o.Namespace == ns && matchesLabels sel o.Labels), s)

def Client.CreateEndpointSlice (c : Client) (obj : EndpointSlice) : M ApiServer EndpointSlice :=
  c.request ⟨.create, .EndpointSlice, obj.Namespace, obj.Name, []⟩ fun s =>
    if s.EndpointSlices.any (fun o => o.key == obj.key) then (.err (.Status .AlreadyExists), s)
    else (.ok obj, { s with EndpointSlices := s.EndpointSlices ++ [obj] })

def Client.UpdateEndpointSlice (c : Client) (obj : EndpointSlice) : M ApiServer EndpointSlice :=
  c.request ⟨.update, .EndpointSlice, obj.Namespace, obj.Name, []⟩ fun s =>
    if s.EndpointSlices.any (fun o => o.key == obj.key) then
      (.ok obj, { s with EndpointSlices :=
        s.EndpointSlices.map (fun o => if o.key == obj.key then obj else o) })
    else (.err (.Status .NotFound), s)

def Client.DeleteEndpointSlice (c : Client) (obj : EndpointSlice) : M ApiServer Unit :=
  c.request ⟨.delete, .EndpointSlice, obj.Namespace, obj.Name, []⟩ fun s =>
    if s.EndpointSlices.any (fun o => o.key == obj.key) then
      (.ok (), { s with EndpointSlices := s.EndpointSlices.filter fun o => !(o.key == obj.key) })
    else (.err (.Status .NotFound), s)

def Client.GetNetworkPolicy (c : Client) (key : NamespacedName) : M ApiServer NetworkPolicy :=
  c.request ⟨.get, .NetworkPolicy, key.Namespace, key.Name, []⟩ fun s =>
    match s.NetworkPolicies.find? (fun o => o.key == key) with
    | some o => (.ok o, s)
    | none => (.err (.Status .NotFound), s)

def Client.CreateNetworkPolicy (c : Client) (obj : NetworkPolicy) : M ApiServer NetworkPolicy :=
  c.request ⟨.create, .NetworkPolicy, obj.Namespace, obj.Name, []⟩ fun s =>
    if s.NetworkPolicies.any (fun o => o.key == obj.key) then (.err (.Status .AlreadyExists), s)
    else (.ok obj, { s with NetworkPolicies := s.NetworkPolicies ++ [obj] })

def Client.UpdateNetworkPolicy (c : Client) (obj : NetworkPolicy) : M ApiServer NetworkPolicy :=
  c.request ⟨.update, .NetworkPolicy, obj.Namespace, obj.Name, []⟩ fun s =>
    if s.NetworkPolicies.any (fun o => o.key == obj.key) then
      (.ok obj, { s with NetworkPolicies :=
        s.NetworkPolicies.map (fun o => if o.key == obj.key then obj else o) })
    else (.err (.Status .NotFound), s)

def Client.GetCustomResourceDefinition (c : Client) (key : NamespacedName) :
    M ApiServer CustomResourceDefinition :=
  c.request ⟨.get, .CustomResourceDefinition, key.Namespace, key.Name, []⟩ fun s =>
    match s.CustomResourceDefinitions.find? (fun o => o.Name == key.Name) with
    | some o => (.ok o, s)
    | none => (.err (.Status .NotFound), s)

def Client.GetMutatingWebhookConfiguration (c : Client) (key : NamespacedName) :
    M ApiServer MutatingWebhookConfiguration :=
  c.request ⟨.get, .MutatingWebhookConfiguration, key.Namespace, key.Name, []⟩ fun s =>
    match s.MutatingWebhookConfigurations.find? (fun o => o.Name == key.Name) with
    | some o => (.ok o, s)
    | none => (.err (.Status .NotFound), s)

/-! ## `controllerutil` -/

inductive OperationResult
  | None
  | Created
  | Updated
  deriving DecidableEq, Repr

/-- The helper `controllerutil.SetControllerReference`: the owner must live in
the namespace of the object, the object must not have another controller, and
the reference is inserted or replaced. -/
def SetControllerReference (ownerKind : Kind) (owner : ObjectMeta) (object : ObjectMeta) :
    Except GoError ObjectMeta :=
  if owner.Namespace ≠ [] ∧ owner.Namespace ≠ object.Namespace then
    .error (.Errorf "cross-namespace owner references are disallowed")
  else
    let ref : OwnerReference := ⟨ownerKind, owner.Name, true⟩
    match object.OwnerReferences.find? (fun r => r.Controller) with
    | some existing =>
      if existing.Kind = ownerKind ∧ existing.Name = owner.Name then
        .ok { object with OwnerReferences :=
          object.OwnerReferences.map fun r =>
            if r.Kind = ownerKind ∧ r.Name = owner.Name then ref else r }
      else .error .AlreadyOwned
    | none =>
      if object.OwnerReferences.any (fun r => r.Kind = ownerKind ∧ r.Name = owner.Name) then
        .ok { object with OwnerReferences :=
          object.OwnerReferences.map fun r =>
            if r.Kind = ownerKind ∧ r.Name = owner.Name then ref else r }
      else
        .ok { object with OwnerReferences := object.OwnerReferences ++ [ref] }

/-- The helper `mutate` of `controllerutil`: run the mutation and reject a
change of the object key. -/
def mutate {α : Type} (f : α → Except GoError α) (key : NamespacedName)
    (keyOf : α → NamespacedName) (obj : α) : Except GoError α :=
  match f obj with
  | .error e => .error e
  | .ok obj1 => if keyOf obj1 = key then .ok obj1 else .error .MutateChangedKey

/-- The helper `controllerutil.CreateOrUpdate`, over the typed requests of one
kind. It returns the operation and the object as the caller sees it afterwards. -/
def CreateOrUpdate {α : Type} [DecidableEq α] (get : NamespacedName → M ApiServer α)
    (create update : α → M ApiServer α) (keyOf : α → NamespacedName) (obj : α)
    (f : α → Except GoError α) : M ApiServer (OperationResult × α) := do
  let key := keyOf obj
  match ← attempt (get key) with
  | .error err =>
    if !IsNotFound err then throwErr err
    else
      match mutate f key keyOf obj with
      | .error e => throwErr e
      | .ok obj =>
        let obj ← create obj
        pure (.Created, obj)
  | .ok existing =>
    match mutate f key keyOf existing with
    | .error e => throwErr e
    | .ok obj =>
      if existing = obj then pure (.None, obj)
      else
        let obj ← update obj
        pure (.Updated, obj)

/-! ## The proxy engine (`pkg/proxy`) -/

/-- The struct `proxy.Proxy` (the logger is not modelled). -/
structure Proxy where
  config : Config
  client : Client
  nodeCache : NodeIPCache

/-- The call `getProxyName(name, hashLen)` inside the engine: a slice bound out
of range is a panic. -/
def proxyNameOrPanic {σ : Type} (serviceName : GoString) (hashLen : Int) : M σ GoString :=
  match getProxyName serviceName hashLen with
  | some name => pure name
  | none => goPanic

/-- The helper `utils.IsTargetPortSet`. -/
def IsTargetPortSet (targetPort : IntOrString) : Bool :=
  match targetPort with
  | .Int v => v != 0
  | .String _ => true

/-- The mutation function that `ensureProxyService` hands to `CreateOrUpdate`. -/
def proxyServiceMutation (serviceOrigin : Service) (netRestriction : Bool)
    (serviceProxyObj : Service) : Except GoError Service :=
  let serviceProxyObj : Service := { serviceProxyObj with
    Labels := [(LabelManagedBy, ControllerName), (LabelServiceProxyOf, serviceOrigin.Name)] }
  -- All ports from origin service will be proxied with nodePort service.
  let serviceProxyObj : Service := { serviceProxyObj with
    Spec := { serviceProxyObj.Spec with Ports := serviceOrigin.Spec.Ports } }
  let serviceProxyObj : Service :=
    if serviceOrigin.Spec.Selector ≠ [] then
      { serviceProxyObj with
        Spec := { serviceProxyObj.Spec with Selector := serviceOrigin.Spec.Selector } }
    else serviceProxyObj
  -- Publish nodePort only on nodes webhook pod are running.
  let serviceProxyObj : Service :=
    if netRestriction then
      { serviceProxyObj with Spec := { serviceProxyObj.Spec with ExternalTrafficPolicy := .Local } }
    else
      { serviceProxyObj with Spec := { serviceProxyObj.Spec with ExternalTrafficPolicy := .Cluster } }
  let serviceProxyObj : Service :=
    match GoMap.get serviceOrigin.Labels LabelAppInstance with
    | some instanceName =>
      { serviceProxyObj with Labels := GoMap.set serviceProxyObj.Labels LabelPartOf instanceName }
    | none => serviceProxyObj
  match SetControllerReference .Service serviceOrigin.toObjectMeta serviceProxyObj.toObjectMeta with
  | .error e => .error e
  | .ok m => .ok { serviceProxyObj with toObjectMeta := m }

def Proxy.ensureProxyService (p : Proxy) (serviceOrigin : Service) (netRestriction : Bool) :
    M ApiServer Service := do
  let name ← proxyNameOrPanic serviceOrigin.Name serviceNameHashLen
  let serviceProxyObj : Service :=
    { Name := name, Namespace := serviceOrigin.Namespace, Labels := [], OwnerReferences := [],
      Spec := { Type_ := .NodePort, Ports := [], Selector := [], ExternalTrafficPolicy := .unset } }
  let (_, serviceProxyObj) ← CreateOrUpdate p.client.GetService p.client.CreateService
    p.client.UpdateService (fun o => o.key) serviceProxyObj
    (proxyServiceMutation serviceOrigin netRestriction)
  pure serviceProxyObj

/-- The mutation function that `ensureNetworkPolicy` hands to `CreateOrUpdate`;
`peers` is the list `from` built from the configured CIDRs. -/
def networkPolicyMutation (serviceOrigin : Service) (peers : List NetworkPolicyPeer)
    (networPolicy : NetworkPolicy) : Except GoError NetworkPolicy :=
  let networPolicy : NetworkPolicy := { networPolicy with
    Labels := [(LabelManagedBy, ControllerName), (LabelServiceProxyOf, serviceOrigin.Name)] }
  let networPolicy : NetworkPolicy := { networPolicy with
    Spec := { networPolicy.Spec with PodSelector := ⟨serviceOrigin.Spec.Selector⟩ } }
  let networPolicy : NetworkPolicy :=
    match GoMap.get serviceOrigin.Labels LabelAppInstance with
    | some instanceName =>
      { networPolicy with Labels := GoMap.set networPolicy.Labels LabelPartOf instanceName }
    | none => networPolicy
  -- Collecting ports from original service.
  let ports : List NetworkPolicyPort :=
    serviceOrigin.Spec.Ports.foldl (fun ports servicePort =>
      let targetPort := servicePort.TargetPort
      let targetPort :=
        if !IsTargetPortSet targetPort then IntOrString.Int servicePort.Port else targetPort
      ports ++ [{ Protocol := some servicePort.Protocol, Port := some targetPort }]) []
  let networkPolicyIngressRule : NetworkPolicyIngressRule := { From := peers, Ports := ports }
  let networPolicy : NetworkPolicy := { networPolicy with
    Spec := { networPolicy.Spec with Ingress := [networkPolicyIngressRule] } }
  match SetControllerReference .Service serviceOrigin.toObjectMeta networPolicy.toObjectMeta with
  | .error e => .error e
  | .ok m => .ok { networPolicy with toObjectMeta := m }

def Proxy.ensureNetworkPolicy (p : Proxy) (serviceOrigin : Service) : M ApiServer Unit := do
  let name ← proxyNameOrPanic serviceOrigin.Name serviceNameHashLen
  let networPolicy : NetworkPolicy :=
    { Name := name, Namespace := serviceOrigin.Namespace, Labels := [], OwnerReferences := [],
      Spec := { PodSelector := ⟨[]⟩, Ingress := [] } }
  let peers : List NetworkPolicyPeer :=
    p.config.Proxy.AllowedSrcCIDRs.foldl (fun peers cidr => peers ++ [⟨some ⟨cidr⟩⟩]) []
  let _ ← CreateOrUpdate p.client.GetNetworkPolicy p.client.CreateNetworkPolicy
    p.client.UpdateNetworkPolicy (fun o => o.key) networPolicy
    (networkPolicyMutation serviceOrigin peers)
  pure ()

/-- The method `EnsureServiceProxy`; the result `none` is the nil service. -/
def Proxy.EnsureServiceProxy (p : Proxy) (serviceRef : ServiceReference) :
    M ApiServer (Option Service) := do
  let serviceNetRestriction := p.config.Proxy.Restricted
  let serviceKey : NamespacedName := ⟨serviceRef.Namespace, serviceRef.Name⟩
  match ← attempt (p.client.GetService serviceKey) with
  | .error err =>
    if IsNotFound err then throwErr .ErrServiceNotFound
    else throwErr err
  | .ok serviceOrigin =>
    if serviceOrigin.Spec.Type_ ≠ .ClusterIP then pure none
    else
      let serviceNetRestriction :=
        match GoMap.get serviceOrigin.Labels LabelServiceProxyIgnoreRestriction with
        | some val => val != str "true"
        | none => serviceNetRestriction
      let serviceProxy ← p.ensureProxyService serviceOrigin serviceNetRestriction
      if serviceNetRestriction then
        match ← attempt (p.ensureNetworkPolicy serviceOrigin) with
        | .error _ => pure ()
        | .ok _ => pure ()
      pure (some serviceProxy)

def Proxy.removeSelector (p : Proxy) (serviceOrigin : Service) : M ApiServer Service :=
  let serviceOrigin : Service :=
    { serviceOrigin with Spec := { serviceOrigin.Spec with Selector := [] } }
  p.client.UpdateService serviceOrigin

/-- The method `getEndpointSlices`: the endpoint slices of the namespace that
carry the service name and are managed by the platform controller. -/
def Proxy.getEndpointSlices (p : Proxy) (serviceName : NamespacedName) :
    M ApiServer (List EndpointSlice) := do
  match ← attempt (p.client.ListEndpointSlices serviceName.Namespace
      [(LabelEndpointSliceServiceName, serviceName.Name),
       (LabelEdpointSliceManagedBy, LabelKeyEndpointSliceController)]) with
  | .error err => throwErr (.Wrap "failed to list endpoint slices for service" err)
  | .ok items => pure items

/-- The loop of `cleanPodEndpointSlices`: the first failing delete ends it. -/
def Proxy.deleteEndpointSlices (p : Proxy) : List EndpointSlice → M ApiServer Unit
  | [] => pure ()
  | es :: rest => do
    match ← attempt (p.client.DeleteEndpointSlice es) with
    | .error err => IgnoreNotFound err
    | .ok _ => Proxy.deleteEndpointSlices p rest

def Proxy.cleanPodEndpointSlices (p : Proxy) (serviceOrigin : Service) : M ApiServer Unit := do
  let endpointSlices ← p.getEndpointSlices ⟨serviceOrigin.Namespace, serviceOrigin.Name⟩
  p.deleteEndpointSlices endpointSlices

def Proxy.cleanPodEndpoints (p : Proxy) (serviceOrigin : Service) : M ApiServer Unit := do
  match ← attempt (p.client.GetEndpoints ⟨serviceOrigin.Namespace, serviceOrigin.Name⟩) with
  | .error err => IgnoreNotFound err
  | .ok endpoints =>
    p.client.DeleteEndpoints endpoints

/-- The method `UnbindPodEndpoints`. As in the source, the third step calls
`cleanPodEndpoints` a second time. -/
def Proxy.UnbindPodEndpoints (p : Proxy) (serviceRef : ServiceReference) : M ApiServer Unit := do
  match ← attempt (p.client.GetService ⟨serviceRef.Namespace, serviceRef.Name⟩) with
  | .error err => IgnoreNotFound err
  | .ok serviceOrigin =>
    match ← attempt (p.removeSelector serviceOrigin) with
    | .error err => throwErr (.Wrap "unable to remove selector from service" err)
    | .ok serviceOrigin =>
      match ← attempt (p.cleanPodEndpoints serviceOrigin) with
      | .error err => throwErr (.Wrap "unable to clean up service endpoints" err)
      | .ok _ =>
        match ← attempt (p.cleanPodEndpoints serviceOrigin) with
        | .error err => throwErr (.Wrap "unable to clean up endpointslices" err)
        | .ok _ => pure ()

/-- The method `generateProxyEndpointSlice`. -/
def Proxy.generateProxyEndpointSlice (p : Proxy) (name : GoString)
    (webhookEndpoints : List Endpoint) (proxyService : Service) : EndpointSlice :=
  let proxyEndpointSlice : EndpointSlice :=
    { Name := name, Namespace := proxyService.Namespace, Labels := [], OwnerReferences := [],
      AddressType := .IPv4, Endpoints := [], Ports := [] }
  -- Add NodePorts to proxy endpoint slice.
  let proxyEndpointSlice : EndpointSlice :=
    proxyService.Spec.Ports.foldl (fun (es : EndpointSlice) port =>
      { es with Ports := es.Ports ++
          [{ Name := some port.Name, Port := some port.NodePort, Protocol := some port.Protocol }] })
      proxyEndpointSlice
  -- Add pod's node ipaddress to endpoints.
  webhookEndpoints.foldl (fun (es : EndpointSlice) webhookEndpoint =>
    match webhookEndpoint.NodeName with
    | none => es
    | some nodeName =>
      match p.nodeCache.Get nodeName with
      | (_, false) => es
      | (nodeIPAddress, true) =>
        { es with Endpoints := es.Endpoints ++
            [{ Addresses := [nodeIPAddress], Conditions := webhookEndpoint.Conditions,
               NodeName := none }] })
    proxyEndpointSlice

/-- The mutation function that `EnsureProxyEndpointSlices` hands to
`CreateOrUpdate`; `proxyEndpointSlice` is the deep copy of the generated object. -/
def proxyEndpointSliceMutation (proxyService : Service) (webhookServiceName : GoString)
    (proxyEndpointSlice : EndpointSlice) (proxyEndpointSliceObj : EndpointSlice) :
    Except GoError EndpointSlice :=
  let proxyEndpointSliceObj : EndpointSlice := { proxyEndpointSliceObj with
    Labels := [(LabelEndpointSliceServiceName, webhookServiceName),
               (LabelEdpointSliceManagedBy, ControllerName)] }
  let proxyEndpointSliceObj : EndpointSlice :=
    { proxyEndpointSliceObj with Ports := proxyEndpointSlice.Ports }
  let proxyEndpointSliceObj : EndpointSlice :=
    { proxyEndpointSliceObj with Endpoints := proxyEndpointSlice.Endpoints }
  match SetControllerReference .Service proxyService.toObjectMeta
      proxyEndpointSliceObj.toObjectMeta with
  | .error e => .error e
  | .ok m => .ok { proxyEndpointSliceObj with toObjectMeta := m }

/-- The method `EnsureProxyEndpointSlices`; the argument `none` is the nil
pointer, whose dereference panics. -/
def Proxy.EnsureProxyEndpointSlices (p : Proxy) (proxyService : Option Service) :
    M ApiServer Unit := do
  match proxyService with
  | none => goPanic
  | some proxyService =>
    let proxyServiceKey : NamespacedName := ⟨proxyService.Namespace, proxyService.Name⟩
    match GoMap.get proxyService.Labels LabelServiceProxyOf with
    | none => throwErr (.Errorf "proxy service does not have the label")
    | some webhookServiceName =>
      let name ← proxyNameOrPanic proxyService.Name serviceNameHashLen
      let proxyEndpointSliceKey : NamespacedName := ⟨proxyService.Namespace, name⟩
      -- Get webhook service endpoints.
      let endpointSlices ← p.getEndpointSlices proxyServiceKey
      -- We need to collect service endpoints from slices.
      let webhookEndpoints : List Endpoint :=
        endpointSlices.foldl (fun eps endpointSlice => eps ++ endpointSlice.Endpoints) []
      let proxyEndpointSliceObj :=
        p.generateProxyEndpointSlice proxyEndpointSliceKey.Name webhookEndpoints proxyService
      let proxyEndpointSlice := proxyEndpointSliceObj
      match ← attempt (CreateOrUpdate p.client.GetEndpointSlice p.client.CreateEndpointSlice
          p.client.UpdateEndpointSlice (fun o => o.key) proxyEndpointSliceObj
          (proxyEndpointSliceMutation proxyService webhookServiceName proxyEndpointSlice)) with
      | .error err => IgnoreAlreadyExists err
      | .ok _ => pure ()

/-! ## The watchers (`controllers/crd`, `controllers/mutating`)

A watcher pass runs on the API server state and records, besides, the calls it
makes to the engine and what they return. -/

/-- A call of a watcher to the engine, or its return (`none`: no error). -/
inductive EngineEvent
  | EnsureServiceProxyCall (serviceRef : ServiceReference)
  | EnsureServiceProxyRet (serviceRef : ServiceReference) (serviceProxy : Option Service)
      (err : Option GoError)
  | EnsureProxyEndpointSlicesCall (proxyService : Option Service)
  | EnsureProxyEndpointSlicesRet (proxyService : Option Service) (err : Option GoError)
  | UnbindPodEndpointsCall (serviceRef : ServiceReference)
  | UnbindPodEndpointsRet (serviceRef : ServiceReference) (err : Option GoError)
  deriving DecidableEq, Repr

/-- The state a watcher pass runs on. -/
structure World where
  api : ApiServer
  trace : List EngineEvent
  deriving DecidableEq, Repr

/-- A request of the watcher itself to the API server. -/
def liftApi {α : Type} (m : M ApiServer α) : M World α := fun w =>
  ((m w.api).1, { w with api := (m w.api).2 })

/-- A call to the engine: the call is recorded, the engine runs on the API
server, and the return is recorded (a panic does not return). -/
def invoke {α : Type} (call : EngineEvent) (ret : Except GoError α → EngineEvent)
    (m : M ApiServer α) : M World α := fun w =>
  match m w.api with
  | (.ok a, api) => (.ok a, ⟨api, w.trace ++ [call, ret (.ok a)]⟩)
  | (.err e, api) => (.err e, ⟨api, w.trace ++ [call, ret (.error e)]⟩)
  | (.panic, api) => (.panic, ⟨api, w.trace ++ [call]⟩)

/-- The `error` of a result. -/
def errOf {α : Type} : Except GoError α → Option GoError
  | .ok _ => none
  | .error e => some e

/-- The service of a result (nil on error). -/
def valOf {α : Type} : Except GoError (Option α) → Option α
  | .ok a => a
  | .error _ => none

def callEnsureServiceProxy (p : Proxy) (serviceRef : ServiceReference) :
    M World (Option Service) :=
  invoke (.EnsureServiceProxyCall serviceRef)
    (fun r => .EnsureServiceProxyRet serviceRef (valOf r) (errOf r))
    (p.EnsureServiceProxy serviceRef)

def callEnsureProxyEndpointSlices (p : Proxy) (proxyService : Option Service) : M World Unit :=
  invoke (.EnsureProxyEndpointSlicesCall proxyService)
    (fun r => .EnsureProxyEndpointSlicesRet proxyService (errOf r))
    (p.EnsureProxyEndpointSlices proxyService)

def callUnbindPodEndpoints (p : Proxy) (serviceRef : ServiceReference) : M World Unit :=
  invoke (.UnbindPodEndpointsCall serviceRef)
    (fun r => .UnbindPodEndpointsRet serviceRef (errOf r))
    (p.UnbindPodEndpoints serviceRef)

namespace crd

/-- The struct `crd.Controller`. -/
structure Controller where
  Config : Config
  Client : Client
  Proxy : Proxy

/-- The method `Reconcile` of the CRD watcher. -/
def Controller.Reconcile (c : Controller) (req : NamespacedName) : M World Unit := do
  match ← attempt (liftApi (c.Client.GetCustomResourceDefinition req)) with
  | .error err =>
    -- crd deleted, do nothing.
    if IsNotFound err then pure ()
    else throwErr err
  | .ok crdObj =>
    match crdObj.ConversionWebhookService with
    | none => goPanic
    | some service =>
      let webhookServiceRef : ServiceReference :=
        { Namespace := service.Namespace, Name := service.Name, Port := some DefaultWebhookPort }
      let webhookServiceRef : ServiceReference :=
        if service.Port ≠ none then { webhookServiceRef with Port := service.Port }
        else webhookServiceRef
      -- Create/update nodePort service for proxy.
      let serviceProxy ← callEnsureServiceProxy c.Proxy webhookServiceRef
      -- Create/update endpoint slice with nodePort endpoints.
      callEnsureProxyEndpointSlices c.Proxy serviceProxy
      callUnbindPodEndpoints c.Proxy webhookServiceRef

end crd

namespace mutating

/-- The struct `mutating.Controller`. -/
structure Controller where
  Config : Config
  Client : Client
  Proxy : Proxy

/-- The keys put in `webhookServiceMap`: the service reference of every webhook
entry that has one, its port defaulted. The map is keyed by pointer, so every
such entry contributes its own key. -/
def webhookServiceRefs : List MutatingWebhook → List ServiceReference
  | [] => []
  | webhook :: rest =>
    match webhook.ClientConfigService with
    | none => webhookServiceRefs rest
    | some serviceRef =>
      let serviceRef : ServiceReference :=
        if serviceRef.Port = none then { serviceRef with Port := some DefaultWebhookPort }
        else serviceRef
      serviceRef :: webhookServiceRefs rest

/-- The loop over `webhookServiceMap`, in the order the map yields its keys. -/
def Controller.reconcileServices (c : Controller) : List ServiceReference → M World Unit
  | [] => pure ()
  | webhookServiceRef :: rest => do
    match ← attempt (callEnsureServiceProxy c.Proxy webhookServiceRef) with
    | .error err =>
      if err.Is .ErrServiceNotFound then Controller.reconcileServices c rest
      else throwErr err
    | .ok serviceProxy =>
      callEnsureProxyEndpointSlices c.Proxy serviceProxy
      callUnbindPodEndpoints c.Proxy webhookServiceRef
      Controller.reconcileServices c rest

/-- The method `Reconcile` of the mutating-webhook watcher. The iteration order
of a Go map is unspecified: `mapOrder` is the order in which the map yields the
collected keys. -/
def Controller.Reconcile (c : Controller)
    (mapOrder : List ServiceReference → List ServiceReference) (req : NamespacedName) :
    M World Unit := do
  match ← attempt (liftApi (c.Client.GetMutatingWebhookConfiguration ⟨[], req.Name⟩)) with
  | .error err =>
    -- webhook deleted, do nothing.
    if IsNotFound err then pure ()
    else throwErr err
  | .ok webhookObj =>
    -- Need to create only one nodeProxy service per webhook.
    c.reconcileServices (mapOrder (webhookServiceRefs webhookObj.Webhooks))

end mutating

/-! ## Properties used in the statements -/

/-- A computation leaves the observation `f` of the state unchanged, whatever
its outcome. -/
def Preserves {σ α β : Type} (f : σ → β) (m : M σ α) : Prop :=
  ∀ s, f (m s).2 = f s

/-- What the design says one source pod endpoint becomes in the shadow endpoint
set: nothing when it has no node name or its node has no cache entry, else one
endpoint with the single address of the node and the conditions of the source. -/
def resolveEndpoint (cache : NodeIPCache) (e : Endpoint) : Option Endpoint :=
  match e.NodeName with
  | none => none
  | some nodeName =>
    match GoMap.get cache.data nodeName with
    | none => none
    | some ip => some { Addresses := [ip], Conditions := e.Conditions, NodeName := none }

/-- The endpoint list of the shadow endpoint set as the design states it: the
resolved source endpoints, in input order. -/
def specProxyEndpoints (cache : NodeIPCache) (webhookEndpoints : List Endpoint) : List Endpoint :=
  webhookEndpoints.filterMap (resolveEndpoint cache)

/-- All addresses listed by an endpoint slice. -/
def EndpointSlice.addresses (es : EndpointSlice) : List GoString :=
  es.Endpoints.flatMap fun e => e.Addresses

/-- The native endpoint slices of the service `name` in namespace `ns`: the
stored endpoint slices of that namespace whose service-name label is `name` and
which are managed by the endpoint-slice controller of the platform. -/
def nativeEndpointSlices (api : ApiServer) (ns name : GoString) : List EndpointSlice :=
  api.EndpointSlices.filter fun o =>
    o.Namespace == ns &&
      (GoMap.get o.Labels LabelEndpointSliceServiceName == some name &&
        GoMap.get o.Labels LabelEdpointSliceManagedBy == some LabelKeyEndpointSliceController)

namespace Scenario

def originService : Service :=
  { Name := str "webhook-svc", Namespace := str "default", Labels := [], OwnerReferences := [],
    Spec := { Type_ := .ClusterIP,
              Ports := [⟨str "https", str "TCP", 443, .Int 8443, 0⟩],
              Selector := [(str "app", str "webhook")], ExternalTrafficPolicy := .unset } }

def originEndpoints : Endpoints :=
  { Name := str "webhook-svc", Namespace := str "default", Labels := [], OwnerReferences := [] }

/-- The native endpoint slice of the origin service. -/
def nativeSlice : EndpointSlice :=
  { Name := str "webhook-svc-abcde", Namespace := str "default",
    Labels := [(LabelEndpointSliceServiceName, str "webhook-svc"),
               (LabelEdpointSliceManagedBy, LabelKeyEndpointSliceController)],
    OwnerReferences := [⟨.Service, str "webhook-svc", true⟩], AddressType := .IPv4,
    Endpoints := [⟨[str "172.16.0.4"], ⟨some true, some true, some false⟩, some (str "n1")⟩],
    Ports := [⟨some (str "https"), some (str "TCP"), some 8443⟩] }

def cluster : ApiServer :=
  { Services := [originService], Endpoints := [originEndpoints], EndpointSlices := [nativeSlice],
    NetworkPolicies := [],
    CustomResourceDefinitions :=
      [⟨str "foos.example.com", some ⟨str "default", str "webhook-svc", none⟩⟩],
    MutatingWebhookConfigurations := [], nextNodePort := 30000, requests := [] }

def serviceRef : ServiceReference := ⟨str "default", str "webhook-svc", some 443⟩

def nodeCache : NodeIPCache := NewNodeIPCache.Set (str "n1") (str "10.0.1.9")

/-- The engine with restriction off and a client that never fails. -/
def proxy : Proxy := ⟨⟨⟨false, [str "10.0.0.0/8"]⟩⟩, Client.reliable, nodeCache⟩

/-- A pod endpoint on node `n1` that is not ready. -/
def notReadyEndpoint : Endpoint :=
  ⟨[str "172.16.0.5"], ⟨some false, some false, some false⟩, some (str "n1")⟩

/-- A second, ready pod endpoint on node `n1`. -/
def secondEndpoint : Endpoint :=
  ⟨[str "172.16.0.6"], ⟨some true, some true, some false⟩, some (str "n1")⟩

/-- A ready pod endpoint on node `n2`, which has no cache entry. -/
def uncachedEndpoint : Endpoint :=
  ⟨[str "172.16.0.7"], ⟨some true, some true, some false⟩, some (str "n2")⟩

/-- The shadow service that `EnsureServiceProxy` creates for the origin service. -/
def shadowService : Service :=
  { Name := str "webhook-svc-eks-proxy-d848703e", Namespace := str "default",
    Labels := [(LabelManagedBy, ControllerName), (LabelServiceProxyOf, str "webhook-svc")],
    OwnerReferences := [⟨.Service, str "webhook-svc", true⟩],
    Spec := { Type_ := .NodePort,
              Ports := [⟨str "https", str "TCP", 443, .Int 8443, 30000⟩],
              Selector := [(str "app", str "webhook")], ExternalTrafficPolicy := .Cluster } }

/-- The cluster once the shadow service exists. -/
def shadowCluster : ApiServer :=
  { cluster with Services := [originService, shadowService], nextNodePort := 30001 }

/-- A native endpoint slice of the shadow service (the platform builds it from
the mirrored selector): one pod endpoint on node `n1`. -/
def shadowNativeSlice : EndpointSlice :=
  { Name := str "webhook-svc-eks-proxy-d848703e-fghij", Namespace := str "default",
    Labels := [(LabelEndpointSliceServiceName, str "webhook-svc-eks-proxy-d848703e"),
               (LabelEdpointSliceManagedBy, LabelKeyEndpointSliceController)],
    OwnerReferences := [⟨.Service, str "webhook-svc-eks-proxy-d848703e", true⟩],
    AddressType := .IPv4,
    Endpoints := [⟨[str "172.16.0.4"], ⟨some true, some true, some false⟩, some (str "n1")⟩],
    Ports := [⟨some (str "https"), some (str "TCP"), some 8443⟩] }

/-- The cluster once the platform has published the pod endpoints of the shadow
service. -/
def publishedCluster : ApiServer :=
  { shadowCluster with EndpointSlices := [nativeSlice, shadowNativeSlice] }

/-- The origin service carrying the label `proxy-ignore-restriction: "false"`. -/
def labelledOriginService : Service :=
  { originService with Labels := [(LabelServiceProxyIgnoreRestriction, str "false")] }

def labelledCluster : ApiServer :=
  { cluster with Services := [labelledOriginService] }

/-- A client whose every attempt to create a network policy is refused. -/
def policyRefusingClient : Client :=
  ⟨fun _ r =>
    if r.Verb = Verb.create ∧ r.Kind = Kind.NetworkPolicy then
      some (GoError.Status StatusReason.Forbidden)
    else none⟩

/-- The engine with restriction on, over the client that cannot create network
policies. -/
def restrictedProxy : Proxy := ⟨⟨⟨true, [str "10.0.0.0/8"]⟩⟩, policyRefusingClient, nodeCache⟩

def crdController : crd.Controller := ⟨proxy.config, Client.reliable, proxy⟩

end Scenario

/-! ## The endpoint-slice watcher (`controllers/endpointslice`) -/

namespace endpointslice

/-- The struct `endpointslice.Controller`. -/
structure Controller where
  Config : Config
  Client : Client
  Proxy : Proxy

/-- The sentinel `ErrServiceNotFound` of this package, `errors.New("service not found")`. -/
def ErrServiceNotFound : GoError := .Errorf "service not found"

/-- The event filter built in `SetupWithManager`: an endpoint slice triggers a
reconcile unless its label `utils.LabelManagedBy` has the value
`utils.ControllerName`. -/
def predicate (endpointSlice : EndpointSlice) : Bool :=
  match GoMap.get endpointSlice.Labels LabelManagedBy with
  | some val => if val = ControllerName then false else true
  | none => true

/-- The method `getWebhookProxyServices`: `key` is the key of the endpoint slice
of the request. -/
def Controller.getWebhookProxyServices (c : Controller) (key : NamespacedName) :
    M ApiServer (List Service) := do
  match ← attempt (c.Client.ListServices key.Namespace
      [(LabelManagedBy, ControllerName), (LabelEndpointSliceServiceName, key.Name)]) with
  | .error err =>
    if IsNotFound err then throwErr ErrServiceNotFound
    else throwErr err
  | .ok serviceList => pure serviceList

/-- The loop over `proxyServices.Items`. -/
def Controller.rebuildEndpoints (c : Controller) : List Service → M World Unit
  | [] => pure ()
  | proxyService :: rest => do
    callEnsureProxyEndpointSlices c.Proxy (some proxyService)
    Controller.rebuildEndpoints c rest

/-- The method `Reconcile` of the endpoint-slice watcher. -/
def Controller.Reconcile (c : Controller) (req : NamespacedName) : M World Unit := do
  match ← attempt (liftApi (c.Client.GetEndpointSlice req)) with
  | .error err =>
    -- endpointslice deleted, do nothing.
    if IsNotFound err then pure ()
    else throwErr err
  | .ok _ =>
    match ← attempt (liftApi (c.getWebhookProxyServices req)) with
    | .error err =>
      if err.Is ErrServiceNotFound then pure ()
      else throwErr err
    | .ok proxyServices =>
      -- Rebuild endpoints for proxy services.
      c.rebuildEndpoints proxyServices

end endpointslice

/-! ## More of the concrete cluster -/

namespace Scenario

/-- The origin service published as a node-port service (not cluster-IP). -/
def nodePortOriginService : Service :=
  { originService with
    Spec := { originService.Spec with
      Type_ := .NodePort, Ports := [⟨str "https", str "TCP", 443, .Int 8443, 31443⟩] } }

/-- A webhook configuration with one entry backed by `webhook-svc`. -/
def webhookConfiguration : MutatingWebhookConfiguration :=
  ⟨str "hooks", [⟨str "validate.example.com", some ⟨str "default", str "webhook-svc", none⟩⟩]⟩

/-- The cluster in which `webhook-svc` is a node-port service. -/
def nodePortCluster : ApiServer :=
  { cluster with Services := [nodePortOriginService],
                 MutatingWebhookConfigurations := [webhookConfiguration] }

/-- The cluster in which the service named by the webhooks does not exist. -/
def danglingCluster : ApiServer :=
  { cluster with Services := [], Endpoints := [], EndpointSlices := [],
                 MutatingWebhookConfigurations := [webhookConfiguration] }

def mutatingController : mutating.Controller := ⟨proxy.config, Client.reliable, proxy⟩

/-- The engine before node `n1` has entered the node cache. -/
def coldProxy : Proxy := ⟨proxy.config, Client.reliable, NewNodeIPCache⟩

/-- The published cluster after `EnsureProxyEndpointSlices` has run with the
empty node cache: the shadow endpoint set exists and lists no address. -/
def coldCluster : ApiServer :=
  { (coldProxy.EnsureProxyEndpointSlices (some shadowService) publishedCluster).2 with
    requests := [] }

/-- The endpoint-slice watcher once `n1` is in the node cache. -/
def endpointSliceController : endpointslice.Controller := ⟨proxy.config, Client.reliable, proxy⟩

/-- The origin service already unbound: no selector. -/
def cleanOriginService : Service :=
  { originService with Spec := { originService.Spec with Selector := [] } }

/-- A cluster in which the origin service is already clean: no selector, no
`Endpoints` object, no native endpoint slice. -/
def cleanCluster : ApiServer :=
  { cluster with Services := [cleanOriginService, shadowService], Endpoints := [],
                 EndpointSlices := [], nextNodePort := 30001 }

/-- The engine with restriction on and a client that never fails. -/
def restrictingProxy : Proxy := ⟨⟨⟨true, [str "10.0.0.0/8"]⟩⟩, Client.reliable, nodeCache⟩

def restrictingCrdController : crd.Controller :=
  ⟨restrictingProxy.config, Client.reliable, restrictingProxy⟩

/-- The request of the CRD watcher for the definition of the scenario. -/
def crdRequest : NamespacedName := ⟨[], str "foos.example.com"⟩

/-- The cluster left by a first pass of the CRD watcher with restriction on. -/
def afterFirstRestrictedPass : ApiServer :=
  (restrictingCrdController.Reconcile crdRequest ⟨cluster, []⟩).2.api

/-- The cluster left by a second pass on that state. -/
def afterSecondRestrictedPass : ApiServer :=
  (restrictingCrdController.Reconcile crdRequest ⟨afterFirstRestrictedPass, []⟩).2.api

/-- The cluster left by a first pass of the CRD watcher with restriction off. -/
def afterFirstPass : ApiServer :=
  (crdController.Reconcile crdRequest ⟨cluster, []⟩).2.api

/-- The cluster left by a second pass on that state. -/
def afterSecondPass : ApiServer :=
  (crdController.Reconcile crdRequest ⟨afterFirstPass, []⟩).2.api

end Scenario

/-! # Theorems -/

/-! ## The computation monad: lemmas -/

theorem M.bind_def {σ α β : Type} (m : M σ α) (f : α → M σ β) : (m >>= f) = M.bind m f := rfl

theorem Preserves.pure {σ α β : Type} (f : σ → β) (a : α) : Preserves f (Pure.pure a : M σ α) :=
  fun _ => rfl

theorem Preserves.throwErr {σ α β : Type} (f : σ → β) (e : GoError) :
    Preserves f (throwErr e : M σ α) :=
  fun _ => rfl

theorem Preserves.goPanic {σ α β : Type} (f : σ → β) : Preserves f (goPanic : M σ α) :=
  fun _ => rfl

theorem Preserves.bind {σ α β γ : Type} {f : σ → γ} {m : M σ α} {g : α → M σ β}
    (hm : Preserves f m) (hg : ∀ a, Preserves f (g a)) : Preserves f (m >>= g) := by
  intro s
  have h1 := hm s
  rw [M.bind_def, M.bind]
  cases hms : m s with
  | mk r s1 =>
    rw [hms] at h1
    cases r with
    | ok a => exact (hg a s1).trans h1
    | err e => exact h1
    | panic => exact h1

theorem Preserves.attempt {σ α γ : Type} {f : σ → γ} {m : M σ α}
    (hm : Preserves f m) : Preserves f (attempt m) := by
  intro s
  have h1 := hm s
  unfold EksWebhookProxy.attempt
  cases hms : m s with
  | mk r s1 =>
    rw [hms] at h1
    cases r <;> exact h1

theorem Preserves.IgnoreNotFound {σ β : Type} (f : σ → β) (e : GoError) :
    Preserves f (IgnoreNotFound e : M σ Unit) := by
  unfold EksWebhookProxy.IgnoreNotFound
  split
  · exact Preserves.pure f ()
  · exact Preserves.throwErr f e

/-- A request preserves an observation that ignores the request history and
that serving the request preserves. -/
theorem Preserves.request {α γ : Type} {f : ApiServer → γ} (c : Client) (r : Request)
    (serve : ApiServer → Res α × ApiServer)
    (hreq : ∀ s rs, f { s with requests := rs } = f s)
    (hserve : ∀ s, f (serve s).2 = f s) : Preserves f (c.request r serve) := by
  intro s
  unfold Client.request
  dsimp only
  split
  · exact hreq s _
  · exact (hserve _).trans (hreq s _)

theorem M.bind_apply {σ α β : Type} (m : M σ α) (f : α → M σ β) (s : σ) :
    (m >>= f) s =
      match m s with
      | (.ok a, s1) => f a s1
      | (.err e, s1) => (.err e, s1)
      | (.panic, s1) => (.panic, s1) := rfl

theorem M.pure_apply {σ α : Type} (a : α) (s : σ) : (Pure.pure a : M σ α) s = (.ok a, s) := rfl

theorem throwErr_apply {σ α : Type} (e : GoError) (s : σ) :
    (throwErr e : M σ α) s = (.err e, s) := rfl

theorem goPanic_apply {σ α : Type} (s : σ) : (goPanic : M σ α) s = (.panic, s) := rfl

theorem attempt_apply {σ α : Type} (m : M σ α) (s : σ) :
    attempt m s =
      match m s with
      | (.ok a, s1) => (.ok (.ok a), s1)
      | (.err e, s1) => (.ok (.error e), s1)
      | (.panic, s1) => (.panic, s1) := rfl

theorem Client.request_reliable {α : Type} (c : Client) (hc : ∀ n r, c.fault n r = none)
    (r : Request) (serve : ApiServer → Res α × ApiServer) (s : ApiServer) :
    c.request r serve s = serve { s with requests := s.requests ++ [r] } := by
  unfold Client.request
  simp only [hc]

/-! ## C1: `UnbindPodEndpoints` and the native endpoint slices -/

theorem Preserves.GetService (c : Client) (key : NamespacedName) :
    Preserves ApiServer.EndpointSlices (c.GetService key) := by
  apply Preserves.request
  · intro s rs; rfl
  · intro s; dsimp only; split <;> rfl

theorem Preserves.UpdateService (c : Client) (obj : Service) :
    Preserves ApiServer.EndpointSlices (c.UpdateService obj) := by
  apply Preserves.request
  · intro s rs; rfl
  · intro s; dsimp only; split
    · rfl
    · split <;> rfl

theorem Preserves.GetEndpoints (c : Client) (key : NamespacedName) :
    Preserves ApiServer.EndpointSlices (c.GetEndpoints key) := by
  apply Preserves.request
  · intro s rs; rfl
  · intro s; dsimp only; split <;> rfl

theorem Preserves.DeleteEndpoints (c : Client) (obj : Endpoints) :
    Preserves ApiServer.EndpointSlices (c.DeleteEndpoints obj) := by
  apply Preserves.request
  · intro s rs; rfl
  · intro s; dsimp only; split <;> rfl

theorem Preserves.cleanPodEndpoints (p : Proxy) (serviceOrigin : Service) :
    Preserves ApiServer.EndpointSlices (p.cleanPodEndpoints serviceOrigin) := by
  unfold Proxy.cleanPodEndpoints
  apply Preserves.bind (Preserves.attempt (Preserves.GetEndpoints _ _))
  intro r
  cases r with
  | error e => exact Preserves.IgnoreNotFound _ e
  | ok endpoints => exact Preserves.DeleteEndpoints _ _

/-- No run of `UnbindPodEndpoints` deletes (or changes) an endpoint slice: the
stored endpoint slices are the same before and after, whatever the outcome. -/
theorem UnbindPodEndpoints_preserves_endpointSlices (p : Proxy) (serviceRef : ServiceReference) :
    Preserves ApiServer.EndpointSlices (p.UnbindPodEndpoints serviceRef) := by
  unfold Proxy.UnbindPodEndpoints
  apply Preserves.bind (Preserves.attempt (Preserves.GetService _ _))
  intro r
  cases r with
  | error e => exact Preserves.IgnoreNotFound _ e
  | ok serviceOrigin =>
    apply Preserves.bind (Preserves.attempt (Preserves.UpdateService _ _))
    intro r
    cases r with
    | error e => exact Preserves.throwErr _ _
    | ok serviceOrigin1 =>
      apply Preserves.bind (Preserves.attempt (Preserves.cleanPodEndpoints _ _))
      intro r
      cases r with
      | error e => exact Preserves.throwErr _ _
      | ok _ =>
        apply Preserves.bind (Preserves.attempt (Preserves.cleanPodEndpoints _ _))
        intro r
        cases r with
        | error e => exact Preserves.throwErr _ _
        | ok _ => exact Preserves.pure _ _

/-- C1 (code defect). On the cluster of the scenario, where the origin service
`webhook-svc` exists and has one native endpoint slice, `UnbindPodEndpoints`
returns success, the selector is cleared and the `Endpoints` object is deleted,
but the native endpoint slice of the origin service is still stored: the call
issued no request on endpoint slices at all. -/
theorem UnbindPodEndpoints_leaves_native_endpointSlice :
    (Scenario.proxy.UnbindPodEndpoints Scenario.serviceRef Scenario.cluster).1 = .ok () ∧
    Scenario.nativeSlice ∈ Scenario.cluster.EndpointSlices ∧
    Scenario.nativeSlice.Namespace = Scenario.originService.Namespace ∧
    GoMap.get Scenario.nativeSlice.Labels LabelEndpointSliceServiceName
      = some Scenario.originService.Name ∧
    GoMap.get Scenario.nativeSlice.Labels LabelEdpointSliceManagedBy
      = some LabelKeyEndpointSliceController ∧
    Scenario.nativeSlice ∈
      (Scenario.proxy.UnbindPodEndpoints Scenario.serviceRef Scenario.cluster).2.EndpointSlices ∧
    (Scenario.proxy.UnbindPodEndpoints Scenario.serviceRef Scenario.cluster).2.Endpoints = [] ∧
    (Scenario.proxy.UnbindPodEndpoints Scenario.serviceRef
      Scenario.cluster).2.requests.all (fun r => r.Kind != Kind.EndpointSlice) = true := by
  decide!

/-! ## C2: the order of the engine calls in a watcher pass -/

theorem callEnsureServiceProxy_run (p : Proxy) (serviceRef : ServiceReference) (w : World) :
    callEnsureServiceProxy p serviceRef w =
      match p.EnsureServiceProxy serviceRef w.api with
      | (.ok a, api) => (.ok a, ⟨api, w.trace ++
          [EngineEvent.EnsureServiceProxyCall serviceRef,
           EngineEvent.EnsureServiceProxyRet serviceRef a none]⟩)
      | (.err e, api) => (.err e, ⟨api, w.trace ++
          [EngineEvent.EnsureServiceProxyCall serviceRef,
           EngineEvent.EnsureServiceProxyRet serviceRef none (some e)]⟩)
      | (.panic, api) => (.panic, ⟨api, w.trace ++
          [EngineEvent.EnsureServiceProxyCall serviceRef]⟩) := by
  unfold callEnsureServiceProxy invoke
  rcases p.EnsureServiceProxy serviceRef w.api with ⟨r, api⟩
  cases r <;> rfl

theorem callEnsureProxyEndpointSlices_run (p : Proxy) (proxyService : Option Service) (w : World) :
    callEnsureProxyEndpointSlices p proxyService w =
      match p.EnsureProxyEndpointSlices proxyService w.api with
      | (.ok a, api) => (.ok a, ⟨api, w.trace ++
          [EngineEvent.EnsureProxyEndpointSlicesCall proxyService,
           EngineEvent.EnsureProxyEndpointSlicesRet proxyService none]⟩)
      | (.err e, api) => (.err e, ⟨api, w.trace ++
          [EngineEvent.EnsureProxyEndpointSlicesCall proxyService,
           EngineEvent.EnsureProxyEndpointSlicesRet proxyService (some e)]⟩)
      | (.panic, api) => (.panic, ⟨api, w.trace ++
          [EngineEvent.EnsureProxyEndpointSlicesCall proxyService]⟩) := by
  unfold callEnsureProxyEndpointSlices invoke
  rcases p.EnsureProxyEndpointSlices proxyService w.api with ⟨r, api⟩
  cases r <;> rfl

/-- The pass of the CRD watcher on the cluster of the scenario: the three engine
calls in order, each returning without error. -/
theorem crd_Reconcile_trace_example :
    (Scenario.crdController.Reconcile ⟨[], str "foos.example.com"⟩
      ⟨Scenario.cluster, []⟩).2.trace
      = [.EnsureServiceProxyCall Scenario.serviceRef,
         .EnsureServiceProxyRet Scenario.serviceRef (some Scenario.shadowService) none,
         .EnsureProxyEndpointSlicesCall (some Scenario.shadowService),
         .EnsureProxyEndpointSlicesRet (some Scenario.shadowService) none,
         .UnbindPodEndpointsCall Scenario.serviceRef,
         .UnbindPodEndpointsRet Scenario.serviceRef none] := by
  decide!

/-! ## Naming function: lemmas -/

theorem Sha256.length_be (n x : Nat) : (Sha256.be n x).length = n := by
  simp [Sha256.be]

theorem Sha256.length_Sum256 (msg : List UInt8) : (Sha256.Sum256 msg).length = 32 := by
  simp [Sha256.Sum256, Sha256.length_be]

theorem length_EncodeToString (bs : List UInt8) :
    (EncodeToString bs).length = 2 * bs.length := by
  induction bs with
  | nil => rfl
  | cons b bs ih =>
    simp only [EncodeToString, List.flatMap_cons, List.length_append, List.length_cons,
      List.length_nil] at ih ⊢
    omega

theorem length_hexSum (serviceName : GoString) : (hexSum serviceName).length = 64 := by
  simp [hexSum, length_EncodeToString, Sha256.length_Sum256]

theorem length_TrimRight_le (s cutset : GoString) : (TrimRight s cutset).length ≤ s.length := by
  unfold TrimRight List.rdropWhile
  rw [List.length_reverse]
  calc (List.dropWhile _ s.reverse).length ≤ s.reverse.length :=
        (List.dropWhile_sublist _).length_le
    _ = s.length := List.length_reverse s

theorem length_str_dash : (str "-").length = 1 := by decide

theorem length_proxySuffix : proxySuffix.length = 9 := by decide

/-- The hash part used by `getProxyName`: the first `hashLen` hex characters. -/
theorem length_take_hexSum (serviceName : GoString) (n : Nat) (h : n ≤ 64) :
    ((hexSum serviceName).take n).length = n := by
  simp [length_hexSum, h]

/-- Closed form of `getProxyName` for an admissible hash length. -/
theorem getProxyName_eq (serviceName : GoString) (n : Nat) (h : n ≤ 64) :
    getProxyName serviceName (n : Int) =
      if 52 ≤ n then
        some ((proxySuffix ++ str "-" ++ (hexSum serviceName).take n).take 63)
      else
        some (TrimRight (serviceName.take (52 - n)) (str "-")
          ++ (str "-" ++ proxySuffix ++ str "-" ++ (hexSum serviceName).take n)) := by
  have hlen := length_take_hexSum serviceName n h
  have hd := length_str_dash
  have hp := length_proxySuffix
  unfold getProxyName
  simp only [length_hexSum, Int.toNat_ofNat, List.length_append, hlen, hd, hp, maxNameLen]
  have h1 : ¬ ((n : Int) < 0 ∨ ((64 : Nat) : Int) < (n : Int)) := by omega
  rw [if_neg h1]
  by_cases h52 : 52 ≤ n
  · have h2 : ((63 : Int) - ((1 + 9 + 1 + n : Nat) : Int)) < 1 := by omega
    rw [if_pos h2, if_pos h52]
    split
    · rfl
    · rename_i h3
      have h5 : (proxySuffix ++ str "-" ++ (hexSum serviceName).take n).length ≤ 63 := by
        simp only [List.length_append, hlen, hd, hp]
        omega
      rw [List.take_of_length_le h5]
  · have h2 : ¬ ((63 : Int) - ((1 + 9 + 1 + n : Nat) : Int)) < 1 := by omega
    rw [if_neg h2, if_neg h52]
    have h4 : ((63 : Int) - ((1 + 9 + 1 + n : Nat) : Int)).toNat = 52 - n := by omega
    rw [h4]
    split
    · rfl
    · rename_i h3
      rw [List.take_of_length_le (l := serviceName)]
      omega

/-- C3. For every origin name and every hash length between 0 and 64,
`getProxyName` returns a name (it does not panic) of at most 63 bytes. -/
theorem getProxyName_length_le (serviceName : GoString) (hashLen : Int)
    (h0 : 0 ≤ hashLen) (h64 : hashLen ≤ 64) :
    ∃ r, getProxyName serviceName hashLen = some r ∧ r.length ≤ 63 := by
  obtain ⟨n, rfl⟩ := Int.eq_ofNat_of_zero_le h0
  have hn : n ≤ 64 := by omega
  rw [getProxyName_eq serviceName n hn]
  by_cases h52 : 52 ≤ n
  · rw [if_pos h52]
    exact ⟨_, rfl, by simp⟩
  · rw [if_neg h52]
    refine ⟨_, rfl, ?_⟩
    have h1 := length_TrimRight_le (serviceName.take (52 - n)) (str "-")
    have h2 := length_take_hexSum serviceName n hn
    have h3 : (serviceName.take (52 - n)).length ≤ 52 - n := by simp
    simp only [List.length_append, h2, length_str_dash, length_proxySuffix]
    omega

theorem str_suffix_eq : str "-" ++ proxySuffix ++ str "-" = str "-eks-proxy-" := by decide

theorem str_short_eq : proxySuffix ++ str "-" = str "eks-proxy-" := by decide

theorem length_str_suffix : (str "-eks-proxy-").length = 11 := by decide

/-- C3, witness: a 70-byte origin name with the full 64-character hash. -/
theorem getProxyName_length_le_witness :
    (0 : Int) ≤ 64 ∧ (64 : Int) ≤ 64 ∧
      ∃ r, getProxyName (List.replicate 70 120) 64 = some r ∧ r.length ≤ 63 :=
  ⟨by decide, by decide, getProxyName_length_le (List.replicate 70 120) 64 (by decide) (by decide)⟩

/-- The name derived for `my-webhook-service` with the hash length the engine uses. -/
theorem getProxyName_my_webhook_service :
    getProxyName (str "my-webhook-service") serviceNameHashLen
      = some (str "my-webhook-service-eks-proxy-08480e83") := by decide!

/-- C4. With the engine-wide hash length 8, the derived name of every origin
name (in particular of every origin name of at most 63 bytes) ends with
`-eks-proxy-` followed by the first eight hexadecimal characters of the SHA-256
digest of the origin name. -/
theorem getProxyName_ends_with_hash_suffix (serviceName : GoString) :
    ∃ r, getProxyName serviceName serviceNameHashLen = some r ∧
      (str "-eks-proxy-" ++ (hexSum serviceName).take 8) <:+ r := by
  have h := getProxyName_eq serviceName 8 (by omega)
  rw [if_neg (by omega), str_suffix_eq] at h
  exact ⟨_, h, List.suffix_append _ _⟩

/-- C5, counterexample. For a 50-byte origin name and hash length 8 the sum of
the lengths of name and suffix exceeds 63, yet the result is not the fallback
name: the first 44 bytes of the origin name are kept in front of the suffix. -/
theorem getProxyName_long_name_not_fallback :
    (List.replicate 50 (97 : UInt8)).length
        + (str "-eks-proxy-" ++ (hexSum (List.replicate 50 97)).take 8).length > 63 ∧
      getProxyName (List.replicate 50 97) 8
        ≠ some ((str "eks-proxy-" ++ (hexSum (List.replicate 50 97)).take 8).take 63) ∧
      getProxyName (List.replicate 50 97) 8
        = some (List.replicate 44 97 ++ str "-eks-proxy-"
            ++ (hexSum (List.replicate 50 97)).take 8) := by
  decide!

/-- C5, amended. For a hash length between 0 and 64, with `h` the first
`hashLen` hex characters of the digest and `suffix = "-eks-proxy-" + h`: when
the suffix alone has 63 bytes or more, `getProxyName` returns the fallback
`"eks-proxy-" + h` cut to 63 bytes; when the suffix is shorter, it returns the
origin name cut to `63 - len(suffix)` bytes, trailing hyphens trimmed, followed
by the suffix, whatever the length of the origin name. -/
theorem getProxyName_fallback_condition (serviceName : GoString) (hashLen : Int)
    (h0 : 0 ≤ hashLen) (h64 : hashLen ≤ 64) :
    (63 ≤ (str "-eks-proxy-" ++ (hexSum serviceName).take hashLen.toNat).length →
      getProxyName serviceName hashLen
        = some ((str "eks-proxy-" ++ (hexSum serviceName).take hashLen.toNat).take 63)) ∧
    ((str "-eks-proxy-" ++ (hexSum serviceName).take hashLen.toNat).length < 63 →
      getProxyName serviceName hashLen
        = some (TrimRight
            (serviceName.take
              (63 - (str "-eks-proxy-" ++ (hexSum serviceName).take hashLen.toNat).length))
            (str "-")
          ++ (str "-eks-proxy-" ++ (hexSum serviceName).take hashLen.toNat))) := by
  obtain ⟨n, rfl⟩ := Int.eq_ofNat_of_zero_le h0
  have hn : n ≤ 64 := by omega
  have hl := length_take_hexSum serviceName n hn
  have h := getProxyName_eq serviceName n hn
  rw [str_suffix_eq, str_short_eq] at h
  simp only [Int.toNat_ofNat, List.length_append, hl, length_str_suffix]
  constructor
  · intro h63
    rw [h, if_pos (by omega)]
  · intro h63
    rw [h, if_neg (by omega)]
    have : 63 - (11 + n) = 52 - n := by omega
    rw [this]

/-- C5 amended, witness: hash lengths 8 (prefix kept) on a 50-byte name. -/
theorem getProxyName_fallback_condition_witness :
    (0 : Int) ≤ 8 ∧ (8 : Int) ≤ 64 ∧
    ((63 ≤ (str "-eks-proxy-" ++ (hexSum (List.replicate 50 97)).take (8 : Int).toNat).length →
      getProxyName (List.replicate 50 97) 8
        = some ((str "eks-proxy-" ++ (hexSum (List.replicate 50 97)).take (8 : Int).toNat).take 63)) ∧
    ((str "-eks-proxy-" ++ (hexSum (List.replicate 50 97)).take (8 : Int).toNat).length < 63 →
      getProxyName (List.replicate 50 97) 8
        = some (TrimRight
            ((List.replicate 50 97).take
              (63 - (str "-eks-proxy-" ++ (hexSum (List.replicate 50 97)).take (8 : Int).toNat).length))
            (str "-")
          ++ (str "-eks-proxy-" ++ (hexSum (List.replicate 50 97)).take (8 : Int).toNat)))) :=
  ⟨by decide, by decide, getProxyName_fallback_condition (List.replicate 50 97) 8 (by decide) (by decide)⟩

/-- The fallback branch is taken for hash length 52: the result is the 62-byte
name `eks-proxy-` followed by 52 hex characters. -/
theorem getProxyName_fallback_example :
    getProxyName (str "my-webhook-service") 52
      = some (str "eks-proxy-" ++ (hexSum (str "my-webhook-service")).take 52) := by
  decide!

/-! ## C6, C7: the endpoint list of the shadow endpoint set -/

theorem NodeIPCache.Get_eq (c : NodeIPCache) (nodeName : GoString) :
    c.Get nodeName =
      match GoMap.get c.data nodeName with
      | some ip => (ip, true)
      | none => ([], false) := rfl

/-- The port loop of `generateProxyEndpointSlice` does not touch the endpoints. -/
theorem foldl_ports_Endpoints (ports : List ServicePort) (es : EndpointSlice) :
    (ports.foldl (fun (es : EndpointSlice) port =>
      { es with Ports := es.Ports ++
          [{ Name := some port.Name, Port := some port.NodePort,
             Protocol := some port.Protocol }] }) es).Endpoints = es.Endpoints := by
  induction ports generalizing es with
  | nil => rfl
  | cons port ports ih => rw [List.foldl_cons, ih]

/-- The endpoint loop of `generateProxyEndpointSlice` appends the resolved
endpoints. -/
theorem foldl_endpoints_Endpoints (cache : NodeIPCache) (webhookEndpoints : List Endpoint)
    (es : EndpointSlice) :
    (webhookEndpoints.foldl (fun (es : EndpointSlice) webhookEndpoint =>
      match webhookEndpoint.NodeName with
      | none => es
      | some nodeName =>
        match cache.Get nodeName with
        | (_, false) => es
        | (nodeIPAddress, true) =>
          { es with Endpoints := es.Endpoints ++
              [{ Addresses := [nodeIPAddress], Conditions := webhookEndpoint.Conditions,
                 NodeName := none }] }) es).Endpoints
      = es.Endpoints ++ specProxyEndpoints cache webhookEndpoints := by
  induction webhookEndpoints generalizing es with
  | nil => simp [specProxyEndpoints]
  | cons e rest ih =>
    rw [List.foldl_cons, ih]
    unfold specProxyEndpoints
    rw [List.filterMap_cons]
    unfold resolveEndpoint
    cases hn : e.NodeName with
    | none => simp
    | some nodeName =>
      simp only [NodeIPCache.Get_eq]
      cases hg : GoMap.get cache.data nodeName with
      | none => simp
      | some ip => simp

theorem generateProxyEndpointSlice_Endpoints (p : Proxy) (name : GoString)
    (webhookEndpoints : List Endpoint) (proxyService : Service) :
    (p.generateProxyEndpointSlice name webhookEndpoints proxyService).Endpoints
      = specProxyEndpoints p.nodeCache webhookEndpoints := by
  unfold Proxy.generateProxyEndpointSlice
  dsimp only
  rw [foldl_endpoints_Endpoints, foldl_ports_Endpoints]
  rfl

/-- C7. The endpoint list built by `generateProxyEndpointSlice` is, in input
order, one entry per source endpoint whose node name is set and present in the
cache, carrying the single address of that node and the conditions of the source
endpoint unchanged; the other source endpoints are dropped and nothing is
merged, so the list is as long as the list of surviving source endpoints (two
source endpoints on one node give two entries). -/
theorem generateProxyEndpointSlice_endpoints_exact (p : Proxy) (name : GoString)
    (webhookEndpoints : List Endpoint) (proxyService : Service) :
    (p.generateProxyEndpointSlice name webhookEndpoints proxyService).Endpoints
      = webhookEndpoints.filterMap (resolveEndpoint p.nodeCache) ∧
    (p.generateProxyEndpointSlice name webhookEndpoints proxyService).Endpoints.length
      = (webhookEndpoints.filter fun e =>
          match e.NodeName with
          | none => false
          | some nodeName => (p.nodeCache.Get nodeName).2).length := by
  rw [generateProxyEndpointSlice_Endpoints]
  refine ⟨rfl, ?_⟩
  unfold specProxyEndpoints
  induction webhookEndpoints with
  | nil => rfl
  | cons e rest ih =>
    rw [List.filterMap_cons, List.filter_cons]
    unfold resolveEndpoint
    cases hn : e.NodeName with
    | none => simpa using ih
    | some nodeName =>
      simp only [NodeIPCache.Get_eq]
      cases hg : GoMap.get p.nodeCache.data nodeName with
      | none => simpa using ih
      | some ip => simpa using ih

/-- Two source endpoints on the same node give two entries with the same
address, in input order; the endpoint on a node without cache entry is dropped. -/
theorem generateProxyEndpointSlice_same_node_example :
    (Scenario.proxy.generateProxyEndpointSlice (str "shadow")
        [Scenario.notReadyEndpoint, Scenario.uncachedEndpoint, Scenario.secondEndpoint]
        Scenario.shadowService).Endpoints
      = [⟨[str "10.0.1.9"], ⟨some false, some false, some false⟩, none⟩,
         ⟨[str "10.0.1.9"], ⟨some true, some true, some false⟩, none⟩] := by
  decide!

/-- C6, counterexample. A single source endpoint that is not ready, on a node
with a cache entry: no source endpoint is ready, so the set of the claim is
empty, yet the built endpoint set lists the address of the node. -/
theorem generateProxyEndpointSlice_not_ready_counterexample :
    (∀ e ∈ [Scenario.notReadyEndpoint], e.Conditions.Ready ≠ some true) ∧
    (Scenario.proxy.generateProxyEndpointSlice (str "shadow") [Scenario.notReadyEndpoint]
        Scenario.shadowService).addresses = [str "10.0.1.9"] ∧
    ¬ (∀ a, a ∈ (Scenario.proxy.generateProxyEndpointSlice (str "shadow")
          [Scenario.notReadyEndpoint] Scenario.shadowService).addresses ↔
        ∃ e ∈ [Scenario.notReadyEndpoint], e.Conditions.Ready = some true ∧
          ∃ nodeName, e.NodeName = some nodeName ∧
            Scenario.proxy.nodeCache.Get nodeName = (a, true)) := by
  have h1 : (Scenario.proxy.generateProxyEndpointSlice (str "shadow") [Scenario.notReadyEndpoint]
        Scenario.shadowService).addresses = [str "10.0.1.9"] := by decide!
  refine ⟨by decide, h1, ?_⟩
  intro h
  have h2 := (h (str "10.0.1.9")).mp (by rw [h1]; exact List.mem_singleton.mpr rfl)
  obtain ⟨e, he, hr, _⟩ := h2
  rw [List.mem_singleton] at he
  subst he
  exact absurd hr (by decide)

/-- C6, amended. The addresses of the endpoint set built by
`generateProxyEndpointSlice` are exactly the cached addresses of the nodes of
the source endpoints that carry a node name, whether the source endpoint is
ready or not; a source endpoint whose node has no cache entry contributes no
address (and the function, being total, raises no error). -/
theorem generateProxyEndpointSlice_addresses (p : Proxy) (name : GoString)
    (webhookEndpoints : List Endpoint) (proxyService : Service) (a : GoString) :
    a ∈ (p.generateProxyEndpointSlice name webhookEndpoints proxyService).addresses ↔
      ∃ e ∈ webhookEndpoints, ∃ nodeName, e.NodeName = some nodeName ∧
        p.nodeCache.Get nodeName = (a, true) := by
  unfold EndpointSlice.addresses
  rw [generateProxyEndpointSlice_Endpoints]
  unfold specProxyEndpoints
  simp only [List.mem_flatMap, List.mem_filterMap]
  constructor
  · rintro ⟨e1, ⟨e, he, hres⟩, ha⟩
    refine ⟨e, he, ?_⟩
    unfold resolveEndpoint at hres
    cases hn : e.NodeName with
    | none => simp [hn] at hres
    | some nodeName =>
      simp only [hn] at hres
      cases hg : GoMap.get p.nodeCache.data nodeName with
      | none => simp [hg] at hres
      | some ip =>
        simp only [hg, Option.some.injEq] at hres
        subst hres
        simp only [List.mem_singleton] at ha
        subst ha
        exact ⟨nodeName, rfl, by simp [NodeIPCache.Get_eq, hg]⟩
  · rintro ⟨e, he, nodeName, hn, hget⟩
    rw [NodeIPCache.Get_eq] at hget
    cases hg : GoMap.get p.nodeCache.data nodeName with
    | none => simp [hg] at hget
    | some ip =>
      simp only [hg, Prod.mk.injEq, and_true] at hget
      subst hget
      exact ⟨⟨[ip], e.Conditions, none⟩, ⟨e, he, by simp [resolveEndpoint, hn, hg]⟩,
        List.mem_singleton.mpr rfl⟩

theorem foldl_invariant {α β γ : Type} (g : β → γ) (f : β → α → β)
    (h : ∀ b a, g (f b a) = g b) (l : List α) (init : β) : g (l.foldl f init) = g init := by
  induction l generalizing init with
  | nil => rfl
  | cons a l ih => rw [List.foldl_cons, ih, h]

theorem generateProxyEndpointSlice_key (p : Proxy) (name : GoString)
    (webhookEndpoints : List Endpoint) (proxyService : Service) :
    (p.generateProxyEndpointSlice name webhookEndpoints proxyService).key
      = ⟨proxyService.Namespace, name⟩ := by
  unfold Proxy.generateProxyEndpointSlice
  dsimp only
  rw [foldl_invariant (fun (es : EndpointSlice) => es.key), foldl_invariant (fun (es : EndpointSlice) => es.key)]
  · rfl
  · intro b a; rfl
  · intro b a
    dsimp only
    split
    · rfl
    · split <;> rfl

/-! ## C8: the endpoint slices `EnsureProxyEndpointSlices` reads -/

theorem mutate_ok {α : Type} (f : α → Except GoError α) (key : NamespacedName)
    (keyOf : α → NamespacedName) (obj o : α) (h : mutate f key keyOf obj = .ok o) :
    f obj = .ok o ∧ keyOf o = key := by
  unfold mutate at h
  cases hf : f obj with
  | error e => simp [hf] at h
  | ok o1 =>
    simp only [hf] at h
    split at h
    · rename_i hk
      simp only [Except.ok.injEq] at h
      subst h
      exact ⟨rfl, hk⟩
    · simp at h

theorem mutate_error {α : Type} (f : α → Except GoError α) (key : NamespacedName)
    (keyOf : α → NamespacedName) (obj : α) (e : GoError) (h : mutate f key keyOf obj = .error e) :
    f obj = .error e ∨ e = .MutateChangedKey := by
  unfold mutate at h
  cases hf : f obj with
  | error e1 =>
    simp only [hf, Except.error.injEq] at h
    exact Or.inl (by rw [h])
  | ok o1 =>
    simp only [hf] at h
    split at h
    · simp at h
    · simp only [Except.error.injEq] at h
      exact Or.inr h.symm

theorem CreateOrUpdate_slice_ok (c : Client) (hc : ∀ n r, c.fault n r = none)
    (obj : EndpointSlice) (f : EndpointSlice → Except GoError EndpointSlice)
    (s s1 : ApiServer) (op : OperationResult) (o : EndpointSlice)
    (h : CreateOrUpdate c.GetEndpointSlice c.CreateEndpointSlice c.UpdateEndpointSlice
      (fun o => o.key) obj f s = (.ok (op, o), s1)) :
    o ∈ s1.EndpointSlices ∧ o.key = obj.key ∧ ∃ base, f base = .ok o := by
  unfold CreateOrUpdate at h
  simp only [M.bind_apply, attempt_apply, Client.GetEndpointSlice, Client.CreateEndpointSlice,
    Client.UpdateEndpointSlice, Client.request_reliable c hc] at h
  cases hf : List.find? (fun o => o.key == obj.key) s.EndpointSlices with
  | none =>
    simp only [hf] at h
    have hnf : IsNotFound (GoError.Status StatusReason.NotFound) = true := rfl
    simp only [hnf, Bool.not_true, Bool.false_eq_true, if_false] at h
    cases hm : mutate f obj.key (fun o => o.key) obj with
    | error e => simp [hm, throwErr_apply] at h
    | ok obj1 =>
      obtain ⟨hf1, hk1⟩ := mutate_ok _ _ _ _ _ hm
      simp only [hm, M.bind_apply, M.pure_apply, Client.request_reliable c hc] at h
      have hany : (s.EndpointSlices.any fun o => o.key == obj1.key) = false := by
        rw [List.find?_eq_none] at hf
        rw [List.any_eq_false]
        intro x hx
        rw [hk1]
        exact hf x hx
      simp only [hany, Bool.false_eq_true, if_false, Prod.mk.injEq, Res.ok.injEq] at h
      obtain ⟨⟨_, rfl⟩, rfl⟩ := h
      exact ⟨by simp, hk1, obj, hf1⟩
  | some existing =>
    simp only [hf] at h
    have hex := List.find?_some hf
    have hmem := List.mem_of_find?_eq_some hf
    cases hm : mutate f obj.key (fun o => o.key) existing with
    | error e => simp [hm, throwErr_apply] at h
    | ok obj1 =>
      obtain ⟨hf1, hk1⟩ := mutate_ok _ _ _ _ _ hm
      simp only [hm] at h
      split at h
      · rename_i heq
        simp only [M.pure_apply, Prod.mk.injEq, Res.ok.injEq] at h
        obtain ⟨⟨_, rfl⟩, rfl⟩ := h
        subst heq
        exact ⟨hmem, hk1, existing, hf1⟩
      · simp only [M.bind_apply, M.pure_apply, Client.request_reliable c hc] at h
        have hany : (s.EndpointSlices.any fun o => o.key == obj1.key) = true := by
          rw [List.any_eq_true]
          exact ⟨existing, hmem, by rw [hk1]; exact hex⟩
        simp only [hany, if_true, Prod.mk.injEq, Res.ok.injEq] at h
        obtain ⟨⟨_, rfl⟩, rfl⟩ := h
        refine ⟨?_, hk1, existing, hf1⟩
        rw [List.mem_map]
        exact ⟨existing, hmem, by rw [hk1]; simp [hex]⟩

theorem CreateOrUpdate_slice_err (c : Client) (hc : ∀ n r, c.fault n r = none)
    (obj : EndpointSlice) (f : EndpointSlice → Except GoError EndpointSlice)
    (hferr : ∀ base e1, f base = .error e1 → IsAlreadyExists e1 = false)
    (s s1 : ApiServer) (e : GoError)
    (h : CreateOrUpdate c.GetEndpointSlice c.CreateEndpointSlice c.UpdateEndpointSlice
      (fun o => o.key) obj f s = (.err e, s1)) :
    IsAlreadyExists e = false := by
  unfold CreateOrUpdate at h
  simp only [M.bind_apply, attempt_apply, Client.GetEndpointSlice, Client.CreateEndpointSlice,
    Client.UpdateEndpointSlice, Client.request_reliable c hc] at h
  cases hf : List.find? (fun o => o.key == obj.key) s.EndpointSlices with
  | none =>
    simp only [hf] at h
    have hnf : IsNotFound (GoError.Status StatusReason.NotFound) = true := rfl
    simp only [hnf, Bool.not_true, Bool.false_eq_true, if_false] at h
    cases hm : mutate f obj.key (fun o => o.key) obj with
    | error e1 =>
      simp only [hm, throwErr_apply, Prod.mk.injEq, Res.err.injEq] at h
      obtain ⟨rfl, _⟩ := h
      rcases mutate_error _ _ _ _ _ hm with h1 | h1
      · exact hferr _ _ h1
      · rw [h1]; rfl
    | ok obj1 =>
      obtain ⟨hf1, hk1⟩ := mutate_ok _ _ _ _ _ hm
      simp only [hm, M.bind_apply, M.pure_apply, Client.request_reliable c hc] at h
      have hany : (s.EndpointSlices.any fun o => o.key == obj1.key) = false := by
        rw [List.find?_eq_none] at hf
        rw [List.any_eq_false]
        intro x hx
        rw [hk1]
        exact hf x hx
      simp [hany] at h
  | some existing =>
    simp only [hf] at h
    have hex := List.find?_some hf
    have hmem := List.mem_of_find?_eq_some hf
    cases hm : mutate f obj.key (fun o => o.key) existing with
    | error e1 =>
      simp only [hm, throwErr_apply, Prod.mk.injEq, Res.err.injEq] at h
      obtain ⟨rfl, _⟩ := h
      rcases mutate_error _ _ _ _ _ hm with h1 | h1
      · exact hferr _ _ h1
      · rw [h1]; rfl
    | ok obj1 =>
      obtain ⟨hf1, hk1⟩ := mutate_ok _ _ _ _ _ hm
      simp only [hm] at h
      split at h
      · simp [M.pure_apply] at h
      · simp only [M.bind_apply, M.pure_apply, Client.request_reliable c hc] at h
        have hany : (s.EndpointSlices.any fun o => o.key == obj1.key) = true := by
          rw [List.any_eq_true]
          exact ⟨existing, hmem, by rw [hk1]; exact hex⟩
        simp [hany] at h

theorem SetControllerReference_error (ownerKind : Kind) (owner object : ObjectMeta) (e : GoError)
    (h : SetControllerReference ownerKind owner object = .error e) :
    IsAlreadyExists e = false := by
  unfold SetControllerReference at h
  split at h
  · simp only [Except.error.injEq] at h
    rw [← h]; rfl
  · dsimp only at h
    split at h
    · split at h
      · simp at h
      · simp only [Except.error.injEq] at h
        rw [← h]; rfl
    · split at h <;> simp at h

theorem SetControllerReference_ok (ownerKind : Kind) (owner object m : ObjectMeta)
    (h : SetControllerReference ownerKind owner object = .ok m) :
    m.Name = object.Name ∧ m.Namespace = object.Namespace ∧ m.Labels = object.Labels := by
  unfold SetControllerReference at h
  split at h
  · simp at h
  · dsimp only at h
    split at h
    · split at h
      · simp only [Except.ok.injEq] at h
        subst h
        exact ⟨rfl, rfl, rfl⟩
      · simp at h
    · split at h <;>
      · simp only [Except.ok.injEq] at h
        subst h
        exact ⟨rfl, rfl, rfl⟩

theorem proxyEndpointSliceMutation_error (proxyService : Service) (webhookServiceName : GoString)
    (proxyEndpointSlice base : EndpointSlice) (e : GoError)
    (h : proxyEndpointSliceMutation proxyService webhookServiceName proxyEndpointSlice base
      = .error e) :
    IsAlreadyExists e = false := by
  unfold proxyEndpointSliceMutation at h
  dsimp only at h
  split at h
  · rename_i e1 hs
    simp only [Except.error.injEq] at h
    subst h
    exact SetControllerReference_error _ _ _ _ hs
  · simp at h

theorem proxyEndpointSliceMutation_ok (proxyService : Service) (webhookServiceName : GoString)
    (proxyEndpointSlice base o : EndpointSlice)
    (h : proxyEndpointSliceMutation proxyService webhookServiceName proxyEndpointSlice base
      = .ok o) :
    o.Endpoints = proxyEndpointSlice.Endpoints ∧ o.Ports = proxyEndpointSlice.Ports ∧
    o.Labels = [(LabelEndpointSliceServiceName, webhookServiceName),
                (LabelEdpointSliceManagedBy, ControllerName)] := by
  unfold proxyEndpointSliceMutation at h
  dsimp only at h
  split at h
  · simp at h
  · rename_i m hs
    simp only [Except.ok.injEq] at h
    subst h
    exact ⟨rfl, rfl, (SetControllerReference_ok _ _ _ _ hs).2.2⟩

theorem foldl_append_Endpoints (slices : List EndpointSlice) (init : List Endpoint) :
    slices.foldl (fun eps endpointSlice => eps ++ endpointSlice.Endpoints) init
      = init ++ slices.flatMap (fun o => o.Endpoints) := by
  induction slices generalizing init with
  | nil => simp
  | cons es rest ih => rw [List.foldl_cons, ih, List.flatMap_cons, List.append_assoc]

/-- On a client that does not fail, `getEndpointSlices` returns the native
endpoint slices of the name it is given. -/
theorem getEndpointSlices_reliable (p : Proxy) (hc : ∀ n r, p.client.fault n r = none)
    (serviceName : NamespacedName) (api : ApiServer) :
    p.getEndpointSlices serviceName api =
      (.ok (nativeEndpointSlices api serviceName.Namespace serviceName.Name),
       { api with requests := api.requests ++
          [⟨.list, .EndpointSlice, serviceName.Namespace, [],
            [(LabelEndpointSliceServiceName, serviceName.Name),
             (LabelEdpointSliceManagedBy, LabelKeyEndpointSliceController)]⟩] }) := by
  unfold Proxy.getEndpointSlices
  simp only [M.bind_apply, attempt_apply, Client.ListEndpointSlices,
    Client.request_reliable p.client hc, M.pure_apply]
  simp [nativeEndpointSlices, matchesLabels]

/-- C8, amended. For every shadow service whose proxy-of label names an origin
service, on a client that does not fail: the endpoint slices that
`EnsureProxyEndpointSlices` reads are exactly the native endpoint slices, in
the namespace of the shadow service, whose service-name label equals the name of
the shadow service itself (not the name of the origin service); and when the call
returns success, the shadow endpoint set stored under the derived name, labelled
with the origin service name, holds the endpoints resolved from the
concatenation of the endpoint lists of those slices, in list order. -/
theorem EnsureProxyEndpointSlices_reads_native_slices_of_shadow (p : Proxy) (proxyService : Service)
    (origin : GoString) (api api1 : ApiServer)
    (hc : ∀ n r, p.client.fault n r = none)
    (hl : GoMap.get proxyService.Labels LabelServiceProxyOf = some origin)
    (hok : p.EnsureProxyEndpointSlices (some proxyService) api = (.ok (), api1)) :
    (p.getEndpointSlices ⟨proxyService.Namespace, proxyService.Name⟩ api).1
      = .ok (nativeEndpointSlices api proxyService.Namespace proxyService.Name) ∧
    ∃ name, getProxyName proxyService.Name serviceNameHashLen = some name ∧
      ∃ es ∈ api1.EndpointSlices, es.Name = name ∧ es.Namespace = proxyService.Namespace ∧
        GoMap.get es.Labels LabelEndpointSliceServiceName = some origin ∧
        es.Endpoints = specProxyEndpoints p.nodeCache
          ((nativeEndpointSlices api proxyService.Namespace proxyService.Name).flatMap
            fun o => o.Endpoints) := by
  refine ⟨by rw [getEndpointSlices_reliable p hc], ?_⟩
  unfold Proxy.EnsureProxyEndpointSlices at hok
  simp only [hl, M.bind_apply, proxyNameOrPanic] at hok
  cases hn : getProxyName proxyService.Name serviceNameHashLen with
  | none => simp [hn, goPanic_apply] at hok
  | some name =>
    refine ⟨name, rfl, ?_⟩
    simp only [hn, M.pure_apply, getEndpointSlices_reliable p hc, attempt_apply] at hok
    cases hcu : CreateOrUpdate p.client.GetEndpointSlice p.client.CreateEndpointSlice
        p.client.UpdateEndpointSlice (fun o => o.key)
        (p.generateProxyEndpointSlice name
          (List.foldl (fun eps endpointSlice => eps ++ endpointSlice.Endpoints) []
            (nativeEndpointSlices api proxyService.Namespace proxyService.Name))
          proxyService)
        (proxyEndpointSliceMutation proxyService origin
          (p.generateProxyEndpointSlice name
            (List.foldl (fun eps endpointSlice => eps ++ endpointSlice.Endpoints) []
              (nativeEndpointSlices api proxyService.Namespace proxyService.Name))
            proxyService))
        { api with requests := api.requests ++
          [⟨.list, .EndpointSlice, proxyService.Namespace, [],
            [(LabelEndpointSliceServiceName, proxyService.Name),
             (LabelEdpointSliceManagedBy, LabelKeyEndpointSliceController)]⟩] } with
    | mk r s1 =>
      rw [hcu] at hok
      cases r with
      | panic => simp at hok
      | err e =>
        have he := CreateOrUpdate_slice_err p.client hc _ _
          (fun base e1 h => proxyEndpointSliceMutation_error _ _ _ base e1 h) _ _ _ hcu
        simp [IgnoreAlreadyExists, he, throwErr_apply] at hok
      | ok a =>
        obtain ⟨op, o⟩ := a
        simp only [M.pure_apply, Prod.mk.injEq, true_and] at hok
        subst hok
        obtain ⟨hmem, hkey, base, hbase⟩ := CreateOrUpdate_slice_ok p.client hc _ _ _ _ _ _ hcu
        obtain ⟨hE, _, hL⟩ := proxyEndpointSliceMutation_ok _ _ _ _ _ hbase
        rw [generateProxyEndpointSlice_key] at hkey
        have hkey1 : o.Namespace = proxyService.Namespace ∧ o.Name = name :=
          ⟨congrArg NamespacedName.Namespace hkey, congrArg NamespacedName.Name hkey⟩
        refine ⟨o, hmem, hkey1.2, hkey1.1, ?_, ?_⟩
        · rw [hL]
          simp [GoMap.get, List.lookup]
        · rw [hE, generateProxyEndpointSlice_Endpoints, foldl_append_Endpoints, List.nil_append]

theorem run_eq_of_fst {σ α : Type} (r : Res α × σ) (a : α) (h : r.1 = .ok a) :
    r = (.ok a, r.2) := by
  cases r
  cases h
  rfl

theorem EnsureProxyEndpointSlices_published_ok :
    (Scenario.proxy.EnsureProxyEndpointSlices (some Scenario.shadowService)
      Scenario.publishedCluster).1 = .ok () := by
  decide!

theorem shadowService_proxyOf :
    GoMap.get Scenario.shadowService.Labels LabelServiceProxyOf = some (str "webhook-svc") := by
  decide!

/-- C8 amended, witness: the cluster in which the platform has published the
pod endpoints of the shadow service. -/
theorem EnsureProxyEndpointSlices_reads_native_slices_of_shadow_witness :
    (∀ n r, Scenario.proxy.client.fault n r = none) ∧
    GoMap.get Scenario.shadowService.Labels LabelServiceProxyOf = some (str "webhook-svc") ∧
    Scenario.proxy.EnsureProxyEndpointSlices (some Scenario.shadowService)
        Scenario.publishedCluster
      = (.ok (), (Scenario.proxy.EnsureProxyEndpointSlices (some Scenario.shadowService)
          Scenario.publishedCluster).2) ∧
    ((Scenario.proxy.getEndpointSlices
        ⟨Scenario.shadowService.Namespace, Scenario.shadowService.Name⟩
        Scenario.publishedCluster).1
      = .ok (nativeEndpointSlices Scenario.publishedCluster Scenario.shadowService.Namespace
          Scenario.shadowService.Name) ∧
    ∃ name, getProxyName Scenario.shadowService.Name serviceNameHashLen = some name ∧
      ∃ es ∈ (Scenario.proxy.EnsureProxyEndpointSlices (some Scenario.shadowService)
          Scenario.publishedCluster).2.EndpointSlices,
        es.Name = name ∧ es.Namespace = Scenario.shadowService.Namespace ∧
        GoMap.get es.Labels LabelEndpointSliceServiceName = some (str "webhook-svc") ∧
        es.Endpoints = specProxyEndpoints Scenario.proxy.nodeCache
          ((nativeEndpointSlices Scenario.publishedCluster Scenario.shadowService.Namespace
            Scenario.shadowService.Name).flatMap fun o => o.Endpoints)) :=
  ⟨fun _ _ => rfl, shadowService_proxyOf,
    run_eq_of_fst _ () EnsureProxyEndpointSlices_published_ok,
    EnsureProxyEndpointSlices_reads_native_slices_of_shadow Scenario.proxy
      Scenario.shadowService (str "webhook-svc") Scenario.publishedCluster _
      (fun _ _ => rfl) shadowService_proxyOf
      (run_eq_of_fst _ () EnsureProxyEndpointSlices_published_ok)⟩

/-- In the published cluster the shadow endpoint set gets the address of node
`n1`, read from the native endpoint slice of the shadow service. -/
theorem EnsureProxyEndpointSlices_published_example :
    ((Scenario.proxy.EnsureProxyEndpointSlices (some Scenario.shadowService)
      Scenario.publishedCluster).2.EndpointSlices.filter
        (fun o => GoMap.get o.Labels LabelEdpointSliceManagedBy == some ControllerName)).map
        (fun o => (o.Name, o.addresses, o.Ports))
      = [(str "webhook-svc-eks-proxy-d848703e-eks-proxy-72c8c8d7", [str "10.0.1.9"],
          [⟨some (str "https"), some (str "TCP"), some 30000⟩])] := by
  decide!

/-- C8, counterexample. The shadow service of the scenario names the origin
service `webhook-svc` in its proxy-of label, and the namespace holds one native
endpoint slice whose service-name label is `webhook-svc`. The endpoint slices
that `EnsureProxyEndpointSlices` reads are not those: its list request selects
the service name of the shadow service itself, nothing is read, and the shadow
endpoint set it writes has no endpoint although the pod endpoint of the origin
service sits on a node with a cached address. -/
theorem EnsureProxyEndpointSlices_does_not_read_origin_slices :
    GoMap.get Scenario.shadowService.Labels LabelServiceProxyOf
      = some Scenario.originService.Name ∧
    nativeEndpointSlices Scenario.shadowCluster Scenario.shadowService.Namespace
      Scenario.originService.Name = [Scenario.nativeSlice] ∧
    (Scenario.proxy.getEndpointSlices
      ⟨Scenario.shadowService.Namespace, Scenario.shadowService.Name⟩
      Scenario.shadowCluster).1 = .ok [] ∧
    (Scenario.proxy.EnsureProxyEndpointSlices (some Scenario.shadowService)
      Scenario.shadowCluster).1 = .ok () ∧
    (Scenario.proxy.EnsureProxyEndpointSlices (some Scenario.shadowService)
      Scenario.shadowCluster).2.requests.filter (fun r => r.Verb == Verb.list)
      = [⟨.list, .EndpointSlice, str "default", [],
          [(LabelEndpointSliceServiceName, str "webhook-svc-eks-proxy-d848703e"),
           (LabelEdpointSliceManagedBy, LabelKeyEndpointSliceController)]⟩] ∧
    ((Scenario.proxy.EnsureProxyEndpointSlices (some Scenario.shadowService)
      Scenario.shadowCluster).2.EndpointSlices.filter
        (fun o => GoMap.get o.Labels LabelEdpointSliceManagedBy == some ControllerName)).map
        (fun o => o.Endpoints) = [[]] ∧
    specProxyEndpoints Scenario.proxy.nodeCache
      ((nativeEndpointSlices Scenario.shadowCluster Scenario.shadowService.Namespace
        Scenario.originService.Name).flatMap fun o => o.Endpoints)
      = [⟨[str "10.0.1.9"], ⟨some true, some true, some false⟩, none⟩] := by
  decide!

/-! ## C9, C10: restriction policy -/

/-- C9 (code defect). With the process-wide restriction flag false and an origin
service labelled `proxy-ignore-restriction: "false"`, `EnsureServiceProxy`
computes the restriction as `val != "true"`, that is true: it creates the
restriction policy (and publishes the shadow service with traffic policy
`Local`). -/
theorem EnsureServiceProxy_restricts_with_flag_off :
    Scenario.proxy.config.Proxy.Restricted = false ∧
    Scenario.labelledOriginService.Spec.Type_ = ServiceType.ClusterIP ∧
    GoMap.get Scenario.labelledOriginService.Labels LabelServiceProxyIgnoreRestriction
      = some (str "false") ∧
    Scenario.labelledCluster.NetworkPolicies = [] ∧
    ((Scenario.proxy.EnsureServiceProxy Scenario.serviceRef Scenario.labelledCluster).2.requests.any
      (fun r => r.Verb == Verb.create && r.Kind == Kind.NetworkPolicy)) = true ∧
    (Scenario.proxy.EnsureServiceProxy Scenario.serviceRef
      Scenario.labelledCluster).2.NetworkPolicies.map
        (fun o => (o.Name, o.Spec.PodSelector.MatchLabels,
          o.Spec.Ingress.map fun rule => rule.From))
      = [(str "webhook-svc-eks-proxy-d848703e", [(str "app", str "webhook")],
          [[⟨some ⟨str "10.0.0.0/8"⟩⟩]])] ∧
    (Scenario.proxy.EnsureServiceProxy Scenario.serviceRef
      Scenario.labelledCluster).2.Services.map (fun o => o.Spec.ExternalTrafficPolicy)
      = [.unset, .Local] := by
  decide!

/-- With the flag false and no override label, no request on network policies
is issued on the same cluster. -/
theorem EnsureServiceProxy_unlabelled_example :
    ((Scenario.proxy.EnsureServiceProxy Scenario.serviceRef Scenario.cluster).2.requests.any
      (fun r => r.Kind == Kind.NetworkPolicy)) = false ∧
    (Scenario.proxy.EnsureServiceProxy Scenario.serviceRef Scenario.cluster).1
      = .ok (some Scenario.shadowService) := by
  decide!

/-- C10 (code defect). With restriction on and a client that refuses to create
network policies, the create-or-update of the restriction policy fails inside
`EnsureServiceProxy` (one create request on network policies is issued and no
policy is stored), yet `EnsureServiceProxy` returns the shadow service and a nil
error. -/
theorem EnsureServiceProxy_swallows_policy_error :
    Scenario.restrictedProxy.config.Proxy.Restricted = true ∧
    (Scenario.restrictedProxy.ensureNetworkPolicy Scenario.originService
      (Scenario.restrictedProxy.ensureProxyService Scenario.originService true
        Scenario.cluster).2).1 = .err (.Status .Forbidden) ∧
    ((Scenario.restrictedProxy.EnsureServiceProxy Scenario.serviceRef
      Scenario.cluster).2.requests.filter (fun r => r.Kind == Kind.NetworkPolicy)).map
        (fun r => r.Verb) = [.get, .create] ∧
    (Scenario.restrictedProxy.EnsureServiceProxy Scenario.serviceRef
      Scenario.cluster).2.NetworkPolicies = [] ∧
    (Scenario.restrictedProxy.EnsureServiceProxy Scenario.serviceRef Scenario.cluster).1
      = .ok (some { Scenario.shadowService with
          Spec := { Scenario.shadowService.Spec with ExternalTrafficPolicy := .Local } }) := by
  decide!

/-- A failing get of the origin service is returned by `EnsureServiceProxy`:
as `ErrServiceNotFound` when it is a not-found error, unchanged otherwise. -/
theorem EnsureServiceProxy_get_error (p : Proxy) (serviceRef : ServiceReference)
    (api api1 : ApiServer) (e : GoError)
    (h : p.client.GetService ⟨serviceRef.Namespace, serviceRef.Name⟩ api = (.err e, api1)) :
    p.EnsureServiceProxy serviceRef api
      = (.err (if IsNotFound e then .ErrServiceNotFound else e), api1) := by
  unfold Proxy.EnsureServiceProxy
  simp only [M.bind_apply, attempt_apply, h]
  split <;> rfl

/-- A failing create-or-update of the shadow service is returned by
`EnsureServiceProxy`. -/
theorem EnsureServiceProxy_shadow_error (p : Proxy) (serviceRef : ServiceReference)
    (api api1 api2 : ApiServer) (serviceOrigin : Service) (e : GoError)
    (hget : p.client.GetService ⟨serviceRef.Namespace, serviceRef.Name⟩ api
      = (.ok serviceOrigin, api1))
    (htype : serviceOrigin.Spec.Type_ = .ClusterIP)
    (hshadow : ∀ netRestriction,
      p.ensureProxyService serviceOrigin netRestriction api1 = (.err e, api2)) :
    p.EnsureServiceProxy serviceRef api = (.err e, api2) := by
  unfold Proxy.EnsureServiceProxy
  simp only [M.bind_apply, attempt_apply, hget, htype, ne_eq, not_true_eq_false, if_false,
    hshadow]

/-- In every state: when the restriction applies and the create-or-update of the
restriction policy fails, `EnsureServiceProxy` still returns the shadow service
and no error. -/
theorem EnsureServiceProxy_policy_error (p : Proxy) (serviceRef : ServiceReference)
    (api api1 api2 api3 : ApiServer) (serviceOrigin serviceProxy : Service) (e : GoError)
    (hget : p.client.GetService ⟨serviceRef.Namespace, serviceRef.Name⟩ api
      = (.ok serviceOrigin, api1))
    (htype : serviceOrigin.Spec.Type_ = .ClusterIP)
    (hrestricted :
      (match GoMap.get serviceOrigin.Labels LabelServiceProxyIgnoreRestriction with
        | some val => val != str "true"
        | none => p.config.Proxy.Restricted) = true)
    (hshadow : p.ensureProxyService serviceOrigin true api1 = (.ok serviceProxy, api2))
    (hpolicy : p.ensureNetworkPolicy serviceOrigin api2 = (.err e, api3)) :
    p.EnsureServiceProxy serviceRef api = (.ok (some serviceProxy), api3) := by
  unfold Proxy.EnsureServiceProxy
  simp only [M.bind_apply, attempt_apply, hget, htype, ne_eq, not_true_eq_false, if_false,
    hrestricted, hshadow, if_true, hpolicy, M.pure_apply]

/-! ## C11: an origin service that is not cluster-IP -/

/-- On a client that does not fail, `EnsureServiceProxy` on an existing service
whose type is not cluster-IP returns the nil service and no error, and its only
request is the get of that service: nothing is written. -/
theorem EnsureServiceProxy_skips_non_clusterIP (p : Proxy) (serviceRef : ServiceReference)
    (api : ApiServer) (serviceOrigin : Service) (hc : ∀ n r, p.client.fault n r = none)
    (hfind : api.Services.find? (fun o => o.key == ⟨serviceRef.Namespace, serviceRef.Name⟩)
      = some serviceOrigin)
    (htype : serviceOrigin.Spec.Type_ ≠ .ClusterIP) :
    p.EnsureServiceProxy serviceRef api
      = (.ok none, { api with requests := api.requests ++
          [⟨.get, .Service, serviceRef.Namespace, serviceRef.Name, []⟩] }) := by
  unfold Proxy.EnsureServiceProxy
  simp only [M.bind_apply, attempt_apply, Client.GetService, Client.request_reliable p.client hc,
    hfind, htype, ne_eq, not_false_eq_true, if_true, M.pure_apply]

/-- The nil service makes `EnsureProxyEndpointSlices` panic, in every state. -/
theorem EnsureProxyEndpointSlices_nil_panics (p : Proxy) (api : ApiServer) :
    p.EnsureProxyEndpointSlices none api = (.panic, api) := rfl

/-- Whenever `EnsureServiceProxy` returns the nil service and no error, the pass
of the CRD watcher ends in a panic: the nil service is handed to
`EnsureProxyEndpointSlices`. -/
theorem crd_Reconcile_nil_service_panics (c : crd.Controller) (req : NamespacedName)
    (api api1 api2 : ApiServer) (crdObj : CustomResourceDefinition) (service : ServiceReference)
    (hcrd : c.Client.GetCustomResourceDefinition req api = (.ok crdObj, api1))
    (hsvc : crdObj.ConversionWebhookService = some service)
    (hesp : ∀ serviceRef : ServiceReference, serviceRef.Namespace = service.Namespace →
      serviceRef.Name = service.Name →
      c.Proxy.EnsureServiceProxy serviceRef api1 = (.ok none, api2))
    (tr : List EngineEvent) :
    (c.Reconcile req ⟨api, tr⟩).1 = .panic := by
  have h := hesp
    (if service.Port ≠ none then
      ({ Namespace := service.Namespace, Name := service.Name, Port := service.Port } :
        ServiceReference)
     else { Namespace := service.Namespace, Name := service.Name,
            Port := some DefaultWebhookPort })
    (by split <;> rfl) (by split <;> rfl)
  unfold crd.Controller.Reconcile
  simp only [M.bind_apply, attempt_apply, liftApi, hcrd, hsvc, callEnsureServiceProxy_run,
    callEnsureProxyEndpointSlices_run, h, EnsureProxyEndpointSlices_nil_panics]

/-- C11 (code defect). The service `webhook-svc` exists as a node-port service.
`EnsureServiceProxy` returns the nil service and no error and writes nothing
(its only request is one get), but neither watcher pass ends as a no-op: the
CRD watcher and the mutating-webhook watcher hand the nil service to
`EnsureProxyEndpointSlices`, which dereferences it, and the pass ends in a
panic instead of returning without error. -/
theorem Reconcile_panics_on_non_clusterIP_service :
    Scenario.nodePortOriginService.Spec.Type_ = ServiceType.NodePort ∧
    Scenario.proxy.EnsureServiceProxy Scenario.serviceRef Scenario.nodePortCluster
      = (.ok none, { Scenario.nodePortCluster with
          requests := [⟨.get, .Service, str "default", str "webhook-svc", []⟩] }) ∧
    (Scenario.crdController.Reconcile Scenario.crdRequest ⟨Scenario.nodePortCluster, []⟩).1
      = .panic ∧
    (Scenario.crdController.Reconcile Scenario.crdRequest ⟨Scenario.nodePortCluster, []⟩).2.trace
      = [.EnsureServiceProxyCall Scenario.serviceRef,
         .EnsureServiceProxyRet Scenario.serviceRef none none,
         .EnsureProxyEndpointSlicesCall none] ∧
    (Scenario.mutatingController.Reconcile id ⟨[], str "hooks"⟩
      ⟨Scenario.nodePortCluster, []⟩).1 = .panic := by
  decide!

/-! ## C12: a webhook that names a missing service -/

/-- Whenever `EnsureServiceProxy` returns an error, the pass of the CRD watcher
returns that error, `ErrServiceNotFound` included. -/
theorem crd_Reconcile_returns_ensure_error (c : crd.Controller) (req : NamespacedName)
    (api api1 api2 : ApiServer) (crdObj : CustomResourceDefinition) (service : ServiceReference)
    (e : GoError)
    (hcrd : c.Client.GetCustomResourceDefinition req api = (.ok crdObj, api1))
    (hsvc : crdObj.ConversionWebhookService = some service)
    (hesp : ∀ serviceRef : ServiceReference, serviceRef.Namespace = service.Namespace →
      serviceRef.Name = service.Name →
      c.Proxy.EnsureServiceProxy serviceRef api1 = (.err e, api2))
    (tr : List EngineEvent) :
    (c.Reconcile req ⟨api, tr⟩).1 = .err e := by
  have h := hesp
    (if service.Port ≠ none then
      ({ Namespace := service.Namespace, Name := service.Name, Port := service.Port } :
        ServiceReference)
     else { Namespace := service.Namespace, Name := service.Name,
            Port := some DefaultWebhookPort })
    (by split <;> rfl) (by split <;> rfl)
  unfold crd.Controller.Reconcile
  simp only [M.bind_apply, attempt_apply, liftApi, hcrd, hsvc, callEnsureServiceProxy_run, h]

/-- C12 (code defect). The conversion webhook of the CRD names `webhook-svc`,
which does not exist. `EnsureServiceProxy` returns `ErrServiceNotFound` and the
pass writes nothing (two get requests only), but the CRD watcher does not abort
silently: `Reconcile` returns `ErrServiceNotFound` as its error, so the key is
queued again. The mutating-webhook watcher, on the same reference, skips it and
returns no error. -/
theorem crd_Reconcile_returns_ErrServiceNotFound :
    Scenario.danglingCluster.Services = [] ∧
    (Scenario.proxy.EnsureServiceProxy Scenario.serviceRef Scenario.danglingCluster).1
      = .err .ErrServiceNotFound ∧
    (Scenario.crdController.Reconcile Scenario.crdRequest ⟨Scenario.danglingCluster, []⟩).1
      = .err .ErrServiceNotFound ∧
    (Scenario.crdController.Reconcile Scenario.crdRequest
      ⟨Scenario.danglingCluster, []⟩).2.api.requests.map (fun r => (r.Verb, r.Kind))
      = [(.get, .CustomResourceDefinition), (.get, .Service)] ∧
    (Scenario.mutatingController.Reconcile id ⟨[], str "hooks"⟩
      ⟨Scenario.danglingCluster, []⟩).1 = .ok () := by
  decide!

/-! ## C13: the event filter of the endpoint-slice watcher -/

/-- The event filter lets every endpoint slice through that carries exactly the
labels the engine puts on its shadow endpoint sets: it looks for the key
`proxy.kubernetes.io/managed-by`, the engine writes the key
`endpointslice.kubernetes.io/managed-by`. -/
theorem predicate_of_engine_labels (es : EndpointSlice) (webhookServiceName : GoString)
    (h : es.Labels = [(LabelEndpointSliceServiceName, webhookServiceName),
                      (LabelEdpointSliceManagedBy, ControllerName)]) :
    endpointslice.predicate es = true := by
  have h1 : (LabelManagedBy == LabelEndpointSliceServiceName) = false := by decide
  have h2 : (LabelManagedBy == LabelEdpointSliceManagedBy) = false := by decide
  unfold endpointslice.predicate
  rw [h]
  simp [GoMap.get, List.lookup, h1, h2]

/-- Every endpoint slice that the mutation function of
`EnsureProxyEndpointSlices` produces passes the event filter. -/
theorem predicate_of_proxyEndpointSliceMutation (proxyService : Service)
    (webhookServiceName : GoString) (proxyEndpointSlice base o : EndpointSlice)
    (h : proxyEndpointSliceMutation proxyService webhookServiceName proxyEndpointSlice base
      = .ok o) :
    endpointslice.predicate o = true :=
  predicate_of_engine_labels o webhookServiceName
    (proxyEndpointSliceMutation_ok _ _ _ _ _ h).2.2

/-- C13 (code defect). The shadow endpoint set that `EnsureProxyEndpointSlices`
writes in the published cluster carries the labels of the engine
(`kubernetes.io/service-name: webhook-svc`,
`endpointslice.kubernetes.io/managed-by: eks-webhook-proxy`), and the event
filter of the endpoint-slice watcher returns true for it: an event on the
engine's own endpoint set does trigger a reconcile. -/
theorem predicate_accepts_engine_endpointSlice :
    ((Scenario.proxy.EnsureProxyEndpointSlices (some Scenario.shadowService)
      Scenario.publishedCluster).2.EndpointSlices.filter
        (fun o => o.Name == str "webhook-svc-eks-proxy-d848703e-eks-proxy-72c8c8d7")).map
        (fun o => (o.Labels, endpointslice.predicate o))
      = [([(LabelEndpointSliceServiceName, str "webhook-svc"),
           (LabelEdpointSliceManagedBy, ControllerName)], true)] := by
  decide!

/-! ## C14: the label lookup of the endpoint-slice watcher -/

/-- No shadow service that the mutation function of `ensureProxyService` produces
carries the label `kubernetes.io/service-name`. -/
theorem proxyServiceMutation_no_service_name_label (serviceOrigin : Service)
    (netRestriction : Bool) (base o : Service)
    (h : proxyServiceMutation serviceOrigin netRestriction base = .ok o) :
    GoMap.get o.Labels LabelEndpointSliceServiceName = none := by
  have h1 : (LabelEndpointSliceServiceName == LabelManagedBy) = false := by decide
  have h2 : (LabelEndpointSliceServiceName == LabelServiceProxyOf) = false := by decide
  have h3 : (LabelEndpointSliceServiceName == LabelPartOf) = false := by decide
  have h4 : (LabelManagedBy == LabelPartOf) = false := by decide
  have h5 : (LabelServiceProxyOf == LabelPartOf) = false := by decide
  unfold proxyServiceMutation at h
  cases hinst : GoMap.get serviceOrigin.Labels LabelAppInstance <;>
    by_cases hsel : serviceOrigin.Spec.Selector = [] <;>
    cases netRestriction <;>
    simp only [hinst, hsel, ne_eq, not_true_eq_false, not_false_eq_true, if_true, if_false,
      Bool.false_eq_true] at h <;>
    split at h <;>
    first
    | (simp at h; done)
    | (rename_i m hs
       simp only [Except.ok.injEq] at h
       subst h
       have hl := (SetControllerReference_ok _ _ _ _ hs).2.2
       dsimp only at hl ⊢
       rw [hl]
       simp [GoMap.get, GoMap.set, List.lookup, h1, h2, h3, h4, h5])

/-- On a client that does not fail, `getWebhookProxyServices` returns only
services that carry the label `kubernetes.io/service-name` with the name of the
endpoint slice as value. -/
theorem getWebhookProxyServices_result (c : endpointslice.Controller)
    (hc : ∀ n r, c.Client.fault n r = none) (key : NamespacedName) (api api1 : ApiServer)
    (services : List Service)
    (h : c.getWebhookProxyServices key api = (.ok services, api1)) :
    ∀ o ∈ services, GoMap.get o.Labels LabelEndpointSliceServiceName = some key.Name := by
  unfold endpointslice.Controller.getWebhookProxyServices at h
  simp only [M.bind_apply, attempt_apply, Client.ListServices, Client.request_reliable c.Client hc,
    M.pure_apply, Prod.mk.injEq, Res.ok.injEq] at h
  obtain ⟨rfl, _⟩ := h
  intro o ho
  rw [List.mem_filter] at ho
  have hm := ho.2
  simp only [matchesLabels, List.all_cons, List.all_nil, Bool.and_true, Bool.and_eq_true,
    beq_iff_eq] at hm
  exact hm.2.2

/-- In every state, on a client that does not fail, the label lookup of the
endpoint-slice watcher returns no shadow service made by `ensureProxyService`. -/
theorem getWebhookProxyServices_misses_shadow (c : endpointslice.Controller)
    (hc : ∀ n r, c.Client.fault n r = none) (key : NamespacedName) (api api1 : ApiServer)
    (services : List Service) (serviceOrigin : Service) (netRestriction : Bool)
    (base shadow : Service)
    (hshadow : proxyServiceMutation serviceOrigin netRestriction base = .ok shadow)
    (h : c.getWebhookProxyServices key api = (.ok services, api1)) :
    shadow ∉ services := by
  intro hmem
  have h1 := getWebhookProxyServices_result c hc key api api1 services h shadow hmem
  rw [proxyServiceMutation_no_service_name_label _ _ _ _ hshadow] at h1
  exact absurd h1 (by simp)

/-- C14 (code defect). In the cold cluster the shadow service of `webhook-svc`
exists, the platform has published a pod endpoint on node `n1`, and the shadow
endpoint set lists no address because `n1` was not cached when it was built.
Node `n1` is now in the cache. On an event for either native endpoint slice the
label lookup of the watcher returns no service (it selects services labelled
`kubernetes.io/service-name` with the name of the endpoint slice, a label that
shadow services do not carry), so the pass makes no engine call and the shadow
endpoint set still lists no address, whereas `EnsureProxyEndpointSlices` on the
shadow service would list `10.0.1.9`. -/
theorem endpointslice_Reconcile_misses_shadow_service :
    Scenario.shadowService ∈ Scenario.coldCluster.Services ∧
    Scenario.shadowNativeSlice ∈ Scenario.coldCluster.EndpointSlices ∧
    endpointslice.predicate Scenario.shadowNativeSlice = true ∧
    (Scenario.coldCluster.EndpointSlices.filter
      (fun o => o.Name == str "webhook-svc-eks-proxy-d848703e-eks-proxy-72c8c8d7")).map
      (fun o => o.addresses) = [[]] ∧
    Scenario.endpointSliceController.Proxy.nodeCache.Get (str "n1") = (str "10.0.1.9", true) ∧
    (Scenario.endpointSliceController.getWebhookProxyServices Scenario.shadowNativeSlice.key
      Scenario.coldCluster).1 = .ok [] ∧
    (Scenario.endpointSliceController.getWebhookProxyServices Scenario.nativeSlice.key
      Scenario.coldCluster).1 = .ok [] ∧
    (Scenario.endpointSliceController.Reconcile Scenario.shadowNativeSlice.key
      ⟨Scenario.coldCluster, []⟩).1 = .ok () ∧
    (Scenario.endpointSliceController.Reconcile Scenario.shadowNativeSlice.key
      ⟨Scenario.coldCluster, []⟩).2.trace = [] ∧
    ((Scenario.endpointSliceController.Reconcile Scenario.shadowNativeSlice.key
      ⟨Scenario.coldCluster, []⟩).2.api.EndpointSlices.filter
      (fun o => o.Name == str "webhook-svc-eks-proxy-d848703e-eks-proxy-72c8c8d7")).map
      (fun o => o.addresses) = [[]] ∧
    ((Scenario.proxy.EnsureProxyEndpointSlices (some Scenario.shadowService)
      Scenario.coldCluster).2.EndpointSlices.filter
      (fun o => o.Name == str "webhook-svc-eks-proxy-d848703e-eks-proxy-72c8c8d7")).map
      (fun o => o.addresses) = [[str "10.0.1.9"]] := by
  decide!

/-! ## C15: the node address cache -/

theorem lookup_map_replace (m : GoMap) (k v : GoString)
    (h : m.any (fun kv => kv.1 == k) = true) :
    List.lookup k (m.map fun kv => if kv.1 == k then (k, v) else kv) = some v := by
  induction m with
  | nil => simp at h
  | cons kv rest ih =>
    obtain ⟨k1, v1⟩ := kv
    by_cases hk : k1 = k
    · subst hk
      simp [List.lookup_cons]
    · have hk1 : (k1 == k) = false := by simpa using hk
      have hk2 : (k == k1) = false := by simpa using fun h => hk h.symm
      rw [List.any_cons, hk1, Bool.false_or] at h
      rw [List.map_cons]
      simp only [hk1, Bool.false_eq_true, if_false, List.lookup_cons, hk2]
      exact ih h

theorem lookup_append_new (m : GoMap) (k v : GoString)
    (h : m.any (fun kv => kv.1 == k) = false) :
    List.lookup k (m ++ [(k, v)]) = some v := by
  induction m with
  | nil => simp [List.lookup_cons]
  | cons kv rest ih =>
    obtain ⟨k1, v1⟩ := kv
    rw [List.any_cons, Bool.or_eq_false_iff] at h
    have hk2 : (k == k1) = false := by
      have h1 : ¬ k1 = k := by simpa using h.1
      simpa using fun h => h1 h.symm
    rw [List.cons_append, List.lookup_cons, hk2]
    exact ih h.2

theorem lookup_set_self (m : GoMap) (k v : GoString) :
    List.lookup k (GoMap.set m k v) = some v := by
  unfold GoMap.set
  split
  · rename_i h
    exact lookup_map_replace m k v h
  · rename_i h
    exact lookup_append_new m k v (Bool.eq_false_iff.mpr h)

theorem lookup_map_replace_other (m : GoMap) (k v k2 : GoString) (hne : k2 ≠ k) :
    List.lookup k2 (m.map fun kv => if kv.1 == k then (k, v) else kv) = List.lookup k2 m := by
  have hkk : (k2 == k) = false := by simpa using hne
  induction m with
  | nil => rfl
  | cons kv rest ih =>
    obtain ⟨k1, v1⟩ := kv
    rw [List.map_cons]
    by_cases hk : k1 = k
    · subst hk
      simp only [beq_self_eq_true, if_true, List.lookup_cons, hkk]
      exact ih
    · have hk1 : (k1 == k) = false := by simpa using hk
      simp only [hk1, Bool.false_eq_true, if_false, List.lookup_cons]
      rw [ih]

theorem lookup_append_other (m : GoMap) (k v k2 : GoString) (hne : k2 ≠ k) :
    List.lookup k2 (m ++ [(k, v)]) = List.lookup k2 m := by
  have hkk : (k2 == k) = false := by simpa using hne
  induction m with
  | nil => simp [List.lookup_cons, hkk]
  | cons kv rest ih =>
    obtain ⟨k1, v1⟩ := kv
    rw [List.cons_append, List.lookup_cons, List.lookup_cons, ih]

theorem lookup_set_other (m : GoMap) (k v k2 : GoString) (hne : k2 ≠ k) :
    List.lookup k2 (GoMap.set m k v) = List.lookup k2 m := by
  unfold GoMap.set
  split
  · exact lookup_map_replace_other m k v k2 hne
  · exact lookup_append_other m k v k2 hne

theorem lookup_filter_self (m : GoMap) (k : GoString) :
    List.lookup k (m.filter fun kv => !(kv.1 == k)) = none := by
  induction m with
  | nil => rfl
  | cons kv rest ih =>
    obtain ⟨k1, v1⟩ := kv
    rw [List.filter_cons]
    by_cases hk : k1 = k
    · subst hk
      simp only [beq_self_eq_true, Bool.not_true, Bool.false_eq_true, if_false]
      exact ih
    · have hk1 : (k1 == k) = false := by simpa using hk
      have hk2 : (k == k1) = false := by simpa using fun h => hk h.symm
      simp only [hk1, Bool.not_false, if_true, List.lookup_cons, hk2]
      exact ih

theorem lookup_filter_other (m : GoMap) (k k2 : GoString) (hne : k2 ≠ k) :
    List.lookup k2 (m.filter fun kv => !(kv.1 == k)) = List.lookup k2 m := by
  have hkk : (k2 == k) = false := by simpa using hne
  induction m with
  | nil => rfl
  | cons kv rest ih =>
    obtain ⟨k1, v1⟩ := kv
    rw [List.filter_cons]
    by_cases hk : k1 = k
    · subst hk
      simp only [beq_self_eq_true, Bool.not_true, Bool.false_eq_true, if_false,
        List.lookup_cons, hkk]
      exact ih
    · have hk1 : (k1 == k) = false := by simpa using hk
      simp only [hk1, Bool.not_false, if_true, List.lookup_cons]
      rw [ih]

/-- C15. The node address cache is a finite map. For every cache state, node
names `n` and `m` with `m ≠ n`, and address `ip`: after `Set(n, ip)`, `Get(n)`
returns `(ip, true)` whatever was stored before; after `Delete(n)`, `Get(n)`
returns `("", false)`; `Get(m)` is unchanged by `Set(n, ip)` and by `Delete(n)`;
and `Get` on a fresh cache returns `("", false)` for every node. -/
theorem NodeIPCache_is_finite_map (c : NodeIPCache) (n m ip : GoString) (hmn : m ≠ n) :
    (c.Set n ip).Get n = (ip, true) ∧
    (c.Delete n).Get n = ([], false) ∧
    (c.Set n ip).Get m = c.Get m ∧
    (c.Delete n).Get m = c.Get m ∧
    (∀ node, NewNodeIPCache.Get node = ([], false)) := by
  refine ⟨?_, ?_, ?_, ?_, fun node => rfl⟩
  · simp only [NodeIPCache.Get_eq, NodeIPCache.Set, GoMap.get, lookup_set_self]
  · simp only [NodeIPCache.Get_eq, NodeIPCache.Delete, GoMap.get, lookup_filter_self]
  · simp only [NodeIPCache.Get_eq, NodeIPCache.Set, GoMap.get, lookup_set_other _ _ _ _ hmn]
  · simp only [NodeIPCache.Get_eq, NodeIPCache.Delete, GoMap.get, lookup_filter_other _ _ _ hmn]

/-- C15, witness: a cache holding `node-a` and `node-b`; `node-a` is overwritten
and deleted, `node-b` is read. -/
theorem NodeIPCache_is_finite_map_witness :
    str "node-b" ≠ str "node-a" ∧
    (((NewNodeIPCache.Set (str "node-a") (str "10.0.0.5")).Set (str "node-b")
        (str "10.0.0.6")).Set (str "node-a") (str "10.0.0.7")).Get (str "node-a")
      = (str "10.0.0.7", true) ∧
    (((NewNodeIPCache.Set (str "node-a") (str "10.0.0.5")).Set (str "node-b")
        (str "10.0.0.6")).Delete (str "node-a")).Get (str "node-a") = ([], false) ∧
    (((NewNodeIPCache.Set (str "node-a") (str "10.0.0.5")).Set (str "node-b")
        (str "10.0.0.6")).Set (str "node-a") (str "10.0.0.7")).Get (str "node-b")
      = ((NewNodeIPCache.Set (str "node-a") (str "10.0.0.5")).Set (str "node-b")
        (str "10.0.0.6")).Get (str "node-b") ∧
    (((NewNodeIPCache.Set (str "node-a") (str "10.0.0.5")).Set (str "node-b")
        (str "10.0.0.6")).Delete (str "node-a")).Get (str "node-b")
      = ((NewNodeIPCache.Set (str "node-a") (str "10.0.0.5")).Set (str "node-b")
        (str "10.0.0.6")).Get (str "node-b") ∧
    (∀ node, NewNodeIPCache.Get node = ([], false)) :=
  ⟨by decide,
    NodeIPCache_is_finite_map
      ((NewNodeIPCache.Set (str "node-a") (str "10.0.0.5")).Set (str "node-b") (str "10.0.0.6"))
      (str "node-a") (str "node-b") (str "10.0.0.7") (by decide)⟩

/-- The example of the design: set, get, overwrite, delete on `node-a`. -/
theorem NodeIPCache_example :
    (NewNodeIPCache.Set (str "node-a") (str "10.0.0.5")).Get (str "node-a")
      = (str "10.0.0.5", true) ∧
    ((NewNodeIPCache.Set (str "node-a") (str "10.0.0.5")).Set (str "node-a")
      (str "10.0.0.9")).Get (str "node-a") = (str "10.0.0.9", true) ∧
    ((NewNodeIPCache.Set (str "node-a") (str "10.0.0.5")).Delete (str "node-a")).Get
      (str "node-a") = ([], false) := by
  decide

/-! ## C16: `UnbindPodEndpoints` on a clean origin service -/

/-- Clearing an empty selector gives the same service. -/
theorem clear_empty_selector (serviceOrigin : Service) (hsel : serviceOrigin.Spec.Selector = []) :
    ({ serviceOrigin with Spec := { serviceOrigin.Spec with Selector := [] } } : Service)
      = serviceOrigin := by
  cases serviceOrigin with
  | mk m spec =>
    cases spec with
    | mk t ports sel etp =>
      simp only at hsel
      subst hsel
      rfl

/-- Replacing the only object of a key by itself leaves the list as it is. -/
theorem map_replace_self (services : List Service) (serviceOrigin : Service)
    (huniq : ∀ o ∈ services, o.key = serviceOrigin.key → o = serviceOrigin) :
    services.map (fun o => if o.key == serviceOrigin.key then serviceOrigin else o) = services := by
  induction services with
  | nil => rfl
  | cons o rest ih =>
    rw [List.map_cons, ih (fun o1 h1 => huniq o1 (List.mem_cons_of_mem _ h1))]
    by_cases hk : o.key = serviceOrigin.key
    · rw [huniq o (List.mem_cons_self _ _) hk]
      simp
    · have : (o.key == serviceOrigin.key) = false := by simpa using hk
      simp [this]

/-- C16, amended. For every cluster-IP origin service that exists (once, under
its key) and is already clean (empty pod selector, no `Endpoints` object), on a
client that does not fail: `UnbindPodEndpoints` returns success, issues no
delete, and its only write request is one update of the origin service (after
the get, and before two gets of the `Endpoints` object), which stores the origin
service as it was; every stored object is the same before and after. -/
theorem UnbindPodEndpoints_clean_run (p : Proxy) (serviceRef : ServiceReference)
    (api : ApiServer) (serviceOrigin : Service)
    (hc : ∀ n r, p.client.fault n r = none)
    (hfind : api.Services.find? (fun o => o.key == ⟨serviceRef.Namespace, serviceRef.Name⟩)
      = some serviceOrigin)
    (huniq : ∀ o ∈ api.Services, o.key = serviceOrigin.key → o = serviceOrigin)
    (htype : serviceOrigin.Spec.Type_ = .ClusterIP)
    (hsel : serviceOrigin.Spec.Selector = [])
    (hnoep : api.Endpoints.find? (fun o => o.key == ⟨serviceRef.Namespace, serviceRef.Name⟩)
      = none) :
    p.UnbindPodEndpoints serviceRef api
      = (.ok (), { api with requests := api.requests ++
          [⟨.get, .Service, serviceRef.Namespace, serviceRef.Name, []⟩,
           ⟨.update, .Service, serviceRef.Namespace, serviceRef.Name, []⟩,
           ⟨.get, .Endpoints, serviceRef.Namespace, serviceRef.Name, []⟩,
           ⟨.get, .Endpoints, serviceRef.Namespace, serviceRef.Name, []⟩] }) := by
  have hkey : serviceOrigin.key = ⟨serviceRef.Namespace, serviceRef.Name⟩ := by
    simpa using List.find?_some hfind
  have hns : serviceOrigin.Namespace = serviceRef.Namespace := congrArg NamespacedName.Namespace hkey
  have hname : serviceOrigin.Name = serviceRef.Name := congrArg NamespacedName.Name hkey
  have hnf : IsNotFound (GoError.Status StatusReason.NotFound) = true := rfl
  have hnp : needsNodePort serviceOrigin.Spec.Type_ = false := by rw [htype]; rfl
  unfold Proxy.UnbindPodEndpoints Proxy.removeSelector Proxy.cleanPodEndpoints
  simp only [M.bind_apply, attempt_apply, Client.GetService, Client.UpdateService,
    Client.GetEndpoints, Client.request_reliable p.client hc, hfind,
    clear_empty_selector serviceOrigin hsel, hkey, hns, hname, hnp, hnoep,
    map_replace_self api.Services serviceOrigin huniq, IgnoreNotFound, hnf, if_true,
    M.pure_apply, Bool.false_eq_true, if_false, List.append_assoc, List.cons_append,
    List.nil_append]
  rw [← hkey, map_replace_self api.Services serviceOrigin huniq]

theorem cleanCluster_find :
    Scenario.cleanCluster.Services.find?
        (fun o => o.key == ⟨Scenario.serviceRef.Namespace, Scenario.serviceRef.Name⟩)
      = some Scenario.cleanOriginService := by
  decide!

theorem cleanCluster_unique :
    ∀ o ∈ Scenario.cleanCluster.Services,
      o.key = Scenario.cleanOriginService.key → o = Scenario.cleanOriginService := by
  decide!

theorem cleanCluster_no_endpoints :
    Scenario.cleanCluster.Endpoints.find?
        (fun o => o.key == ⟨Scenario.serviceRef.Namespace, Scenario.serviceRef.Name⟩)
      = none := by
  decide!

/-- C16 amended, witness: the clean cluster of the scenario. -/
theorem UnbindPodEndpoints_clean_run_witness :
    (∀ n r, Scenario.proxy.client.fault n r = none) ∧
    Scenario.cleanCluster.Services.find?
        (fun o => o.key == ⟨Scenario.serviceRef.Namespace, Scenario.serviceRef.Name⟩)
      = some Scenario.cleanOriginService ∧
    (∀ o ∈ Scenario.cleanCluster.Services,
      o.key = Scenario.cleanOriginService.key → o = Scenario.cleanOriginService) ∧
    Scenario.cleanOriginService.Spec.Type_ = ServiceType.ClusterIP ∧
    Scenario.cleanOriginService.Spec.Selector = [] ∧
    Scenario.cleanCluster.Endpoints.find?
        (fun o => o.key == ⟨Scenario.serviceRef.Namespace, Scenario.serviceRef.Name⟩)
      = none ∧
    Scenario.proxy.UnbindPodEndpoints Scenario.serviceRef Scenario.cleanCluster
      = (.ok (), { Scenario.cleanCluster with requests := Scenario.cleanCluster.requests ++
          [⟨.get, .Service, Scenario.serviceRef.Namespace, Scenario.serviceRef.Name, []⟩,
           ⟨.update, .Service, Scenario.serviceRef.Namespace, Scenario.serviceRef.Name, []⟩,
           ⟨.get, .Endpoints, Scenario.serviceRef.Namespace, Scenario.serviceRef.Name, []⟩,
           ⟨.get, .Endpoints, Scenario.serviceRef.Namespace, Scenario.serviceRef.Name, []⟩] }) :=
  ⟨fun _ _ => rfl, cleanCluster_find, cleanCluster_unique, rfl, rfl, cleanCluster_no_endpoints,
    UnbindPodEndpoints_clean_run Scenario.proxy Scenario.serviceRef Scenario.cleanCluster
      Scenario.cleanOriginService (fun _ _ => rfl) cleanCluster_find cleanCluster_unique rfl rfl
      cleanCluster_no_endpoints⟩

/-- C16, counterexample. In the clean cluster the origin service exists with an
empty selector, and there is no `Endpoints` object and no native endpoint slice
of it. `UnbindPodEndpoints` returns success, but it does perform a write against
the cluster API: its second request is an update of the origin service. -/
theorem UnbindPodEndpoints_clean_still_updates :
    Scenario.cleanOriginService ∈ Scenario.cleanCluster.Services ∧
    Scenario.cleanOriginService.Spec.Selector = [] ∧
    Scenario.cleanCluster.Endpoints = [] ∧
    nativeEndpointSlices Scenario.cleanCluster Scenario.cleanOriginService.Namespace
      Scenario.cleanOriginService.Name = [] ∧
    (Scenario.proxy.UnbindPodEndpoints Scenario.serviceRef Scenario.cleanCluster).1 = .ok () ∧
    (Scenario.proxy.UnbindPodEndpoints Scenario.serviceRef Scenario.cleanCluster).2.requests.map
        (fun r => (r.Verb, r.Kind, r.Name))
      = [(.get, .Service, str "webhook-svc"), (.update, .Service, str "webhook-svc"),
         (.get, .Endpoints, str "webhook-svc"), (.get, .Endpoints, str "webhook-svc")] ∧
    ¬ ((Scenario.proxy.UnbindPodEndpoints Scenario.serviceRef
        Scenario.cleanCluster).2.requests.all
          (fun r => r.Verb != Verb.update && r.Verb != Verb.delete && r.Verb != Verb.create)
        = true) := by
  decide!

/-! ## C17: what the shadow endpoint set holds when the pod path is unbound -/

/-- On a client that does not fail, a successful `EnsureProxyEndpointSlices`
was given a shadow service and leaves, under the derived name, an endpoint set
whose endpoints are resolved from the native endpoint slices published under the
name of the shadow service. -/
theorem EnsureProxyEndpointSlices_ok_stored (p : Proxy) (proxyService : Option Service)
    (api api1 : ApiServer) (hc : ∀ n r, p.client.fault n r = none)
    (hok : p.EnsureProxyEndpointSlices proxyService api = (.ok (), api1)) :
    ∃ shadow name, proxyService = some shadow ∧
      getProxyName shadow.Name serviceNameHashLen = some name ∧
      ∃ es ∈ api1.EndpointSlices, es.Name = name ∧ es.Namespace = shadow.Namespace ∧
        es.Endpoints = specProxyEndpoints p.nodeCache
          ((nativeEndpointSlices api shadow.Namespace shadow.Name).flatMap fun o => o.Endpoints) := by
  cases proxyService with
  | none => simp [EnsureProxyEndpointSlices_nil_panics] at hok
  | some shadow =>
    refine ⟨shadow, ?_⟩
    unfold Proxy.EnsureProxyEndpointSlices at hok
    cases hl : GoMap.get shadow.Labels LabelServiceProxyOf with
    | none => simp [hl, throwErr_apply] at hok
    | some origin =>
      simp only [hl, M.bind_apply, proxyNameOrPanic] at hok
      cases hn : getProxyName shadow.Name serviceNameHashLen with
      | none => simp [hn, goPanic_apply] at hok
      | some name =>
        refine ⟨name, rfl, rfl, ?_⟩
        simp only [hn, M.pure_apply, getEndpointSlices_reliable p hc, attempt_apply] at hok
        cases hcu : CreateOrUpdate p.client.GetEndpointSlice p.client.CreateEndpointSlice
            p.client.UpdateEndpointSlice (fun o => o.key)
            (p.generateProxyEndpointSlice name
              (List.foldl (fun eps endpointSlice => eps ++ endpointSlice.Endpoints) []
                (nativeEndpointSlices api shadow.Namespace shadow.Name))
              shadow)
            (proxyEndpointSliceMutation shadow origin
              (p.generateProxyEndpointSlice name
                (List.foldl (fun eps endpointSlice => eps ++ endpointSlice.Endpoints) []
                  (nativeEndpointSlices api shadow.Namespace shadow.Name))
                shadow))
            { api with requests := api.requests ++
              [⟨.list, .EndpointSlice, shadow.Namespace, [],
                [(LabelEndpointSliceServiceName, shadow.Name),
                 (LabelEdpointSliceManagedBy, LabelKeyEndpointSliceController)]⟩] } with
        | mk r s1 =>
          rw [hcu] at hok
          cases r with
          | panic => simp at hok
          | err e =>
            have he := CreateOrUpdate_slice_err p.client hc _ _
              (fun base e1 h => proxyEndpointSliceMutation_error _ _ _ base e1 h) _ _ _ hcu
            simp [IgnoreAlreadyExists, he, throwErr_apply] at hok
          | ok a =>
            obtain ⟨op, o⟩ := a
            simp only [M.pure_apply, Prod.mk.injEq, true_and] at hok
            subst hok
            obtain ⟨hmem, hkey, base, hbase⟩ :=
              CreateOrUpdate_slice_ok p.client hc _ _ _ _ _ _ hcu
            obtain ⟨hE, _, _⟩ := proxyEndpointSliceMutation_ok _ _ _ _ _ hbase
            rw [generateProxyEndpointSlice_key] at hkey
            refine ⟨o, hmem, congrArg NamespacedName.Name hkey,
              congrArg NamespacedName.Namespace hkey, ?_⟩
            rw [hE, generateProxyEndpointSlice_Endpoints, foldl_append_Endpoints,
              List.nil_append]

/-- The resolved endpoint list carries an address exactly when a source endpoint
sits on a node with a cache entry. -/
theorem specProxyEndpoints_addresses_ne_nil (cache : NodeIPCache) (src : List Endpoint) :
    ((specProxyEndpoints cache src).flatMap fun e => e.Addresses) ≠ [] ↔
      ∃ e ∈ src, ∃ nodeName, e.NodeName = some nodeName ∧ (cache.Get nodeName).2 = true := by
  constructor
  · intro h
    obtain ⟨a, ha⟩ := List.exists_mem_of_ne_nil _ h
    simp only [specProxyEndpoints, List.mem_flatMap, List.mem_filterMap] at ha
    obtain ⟨e1, ⟨e, he, hres⟩, _⟩ := ha
    refine ⟨e, he, ?_⟩
    unfold resolveEndpoint at hres
    cases hn : e.NodeName with
    | none => simp [hn] at hres
    | some nodeName =>
      simp only [hn] at hres
      cases hg : GoMap.get cache.data nodeName with
      | none => simp [hg] at hres
      | some ip => exact ⟨nodeName, rfl, by simp [NodeIPCache.Get_eq, hg]⟩
  · rintro ⟨e, he, nodeName, hn, hget⟩
    rw [NodeIPCache.Get_eq] at hget
    cases hg : GoMap.get cache.data nodeName with
    | none => simp [hg] at hget
    | some ip =>
      apply List.ne_nil_of_mem (a := ip)
      simp only [specProxyEndpoints, List.mem_flatMap, List.mem_filterMap]
      exact ⟨⟨[ip], e.Conditions, none⟩, ⟨e, he, by simp [resolveEndpoint, hn, hg]⟩,
        List.mem_singleton.mpr rfl⟩

/-- C17, amended. Whenever the three-step pass (`EnsureServiceProxy`,
`EnsureProxyEndpointSlices`, `UnbindPodEndpoints`) completes successfully on a
client that does not fail, the shadow endpoint set has been written before the
unbind step starts and is still stored when the pass ends; its endpoints are
resolved from the native endpoint slices published under the name of the shadow
service, so it contains at least one address exactly when one of those pod
endpoints is hosted on a node with a cache entry. The pass does not wait for
that: the set may be empty when the pod path is unbound. -/
theorem pass_shadow_endpoint_set (p : Proxy) (serviceRef : ServiceReference)
    (api0 api3 : ApiServer) (hc : ∀ n r, p.client.fault n r = none)
    (hpass : (p.EnsureServiceProxy serviceRef >>= fun serviceProxy =>
        p.EnsureProxyEndpointSlices serviceProxy >>= fun _ =>
          p.UnbindPodEndpoints serviceRef) api0 = (.ok (), api3)) :
    ∃ api1 api2 shadow name es,
      p.EnsureServiceProxy serviceRef api0 = (.ok (some shadow), api1) ∧
      p.EnsureProxyEndpointSlices (some shadow) api1 = (.ok (), api2) ∧
      p.UnbindPodEndpoints serviceRef api2 = (.ok (), api3) ∧
      getProxyName shadow.Name serviceNameHashLen = some name ∧
      es.Name = name ∧ es.Namespace = shadow.Namespace ∧
      es ∈ api2.EndpointSlices ∧ es ∈ api3.EndpointSlices ∧
      es.Endpoints = specProxyEndpoints p.nodeCache
        ((nativeEndpointSlices api1 shadow.Namespace shadow.Name).flatMap fun o => o.Endpoints) ∧
      (es.addresses ≠ [] ↔
        ∃ e ∈ (nativeEndpointSlices api1 shadow.Namespace shadow.Name).flatMap
            (fun o => o.Endpoints),
          ∃ nodeName, e.NodeName = some nodeName ∧ (p.nodeCache.Get nodeName).2 = true) := by
  simp only [M.bind_apply] at hpass
  cases h1 : p.EnsureServiceProxy serviceRef api0 with
  | mk r1 api1 =>
    rw [h1] at hpass
    cases r1 with
    | panic => simp at hpass
    | err e => simp at hpass
    | ok serviceProxy =>
      dsimp only at hpass
      cases h2 : p.EnsureProxyEndpointSlices serviceProxy api1 with
      | mk r2 api2 =>
        rw [h2] at hpass
        cases r2 with
        | panic => simp at hpass
        | err e => simp at hpass
        | ok u =>
          dsimp only at hpass
          obtain ⟨shadow, name, hsp, hname, es, hmem, hn, hns, hE⟩ :=
            EnsureProxyEndpointSlices_ok_stored p serviceProxy api1 api2 hc h2
          subst hsp
          refine ⟨api1, api2, shadow, name, es, rfl, h2, hpass, hname, hn, hns, hmem, ?_, hE, ?_⟩
          · have hpres := UnbindPodEndpoints_preserves_endpointSlices p serviceRef api2
            rw [hpass] at hpres
            rw [hpres]
            exact hmem
          · unfold EndpointSlice.addresses
            rw [hE]
            exact specProxyEndpoints_addresses_ne_nil _ _

theorem crdController_pass_ok :
    ((Scenario.proxy.EnsureServiceProxy Scenario.serviceRef >>= fun serviceProxy =>
      Scenario.proxy.EnsureProxyEndpointSlices serviceProxy >>= fun _ =>
        Scenario.proxy.UnbindPodEndpoints Scenario.serviceRef) Scenario.cluster).1 = .ok () := by
  decide!

/-- C17 amended, witness: the pass on the cluster of the scenario. -/
theorem pass_shadow_endpoint_set_witness :
    (∀ n r, Scenario.proxy.client.fault n r = none) ∧
    ∃ api3,
      (Scenario.proxy.EnsureServiceProxy Scenario.serviceRef >>= fun serviceProxy =>
        Scenario.proxy.EnsureProxyEndpointSlices serviceProxy >>= fun _ =>
          Scenario.proxy.UnbindPodEndpoints Scenario.serviceRef) Scenario.cluster
        = (.ok (), api3) ∧
      ∃ api1 api2 shadow name es,
        Scenario.proxy.EnsureServiceProxy Scenario.serviceRef Scenario.cluster
          = (.ok (some shadow), api1) ∧
        Scenario.proxy.EnsureProxyEndpointSlices (some shadow) api1 = (.ok (), api2) ∧
        Scenario.proxy.UnbindPodEndpoints Scenario.serviceRef api2 = (.ok (), api3) ∧
        getProxyName shadow.Name serviceNameHashLen = some name ∧
        es.Name = name ∧ es.Namespace = shadow.Namespace ∧
        es ∈ api2.EndpointSlices ∧ es ∈ api3.EndpointSlices ∧
        es.Endpoints = specProxyEndpoints Scenario.proxy.nodeCache
          ((nativeEndpointSlices api1 shadow.Namespace shadow.Name).flatMap
            fun o => o.Endpoints) ∧
        (es.addresses ≠ [] ↔
          ∃ e ∈ (nativeEndpointSlices api1 shadow.Namespace shadow.Name).flatMap
              (fun o => o.Endpoints),
            ∃ nodeName, e.NodeName = some nodeName ∧
              (Scenario.proxy.nodeCache.Get nodeName).2 = true) :=
  ⟨fun _ _ => rfl, _, run_eq_of_fst _ () crdController_pass_ok,
    pass_shadow_endpoint_set Scenario.proxy Scenario.serviceRef Scenario.cluster _
      (fun _ _ => rfl) (run_eq_of_fst _ () crdController_pass_ok)⟩

/-- C17, counterexample. In the cluster of the scenario the cluster-IP origin
service has a ready pod endpoint hosted on node `n1`, and `n1` is in the node
cache. The pass of the CRD watcher completes successfully and clears the pod
selector of the origin service, yet the shadow endpoint set written in that
pass contains no address: the pod path is unbound while the shadow endpoint set
is empty. -/
theorem pass_unbinds_with_empty_shadow_endpoint_set :
    Scenario.originService.Spec.Type_ = ServiceType.ClusterIP ∧
    Scenario.originService.Spec.Selector = [(str "app", str "webhook")] ∧
    (nativeEndpointSlices Scenario.cluster (str "default") (str "webhook-svc")).flatMap
        (fun o => o.Endpoints)
      = [⟨[str "172.16.0.4"], ⟨some true, some true, some false⟩, some (str "n1")⟩] ∧
    Scenario.proxy.nodeCache.Get (str "n1") = (str "10.0.1.9", true) ∧
    (Scenario.crdController.Reconcile Scenario.crdRequest ⟨Scenario.cluster, []⟩).1 = .ok () ∧
    Scenario.afterFirstPass.Services.map (fun o => (o.Name, o.Spec.Selector))
      = [(str "webhook-svc", []),
         (str "webhook-svc-eks-proxy-d848703e", [(str "app", str "webhook")])] ∧
    (Scenario.afterFirstPass.EndpointSlices.filter
      (fun o => GoMap.get o.Labels LabelEdpointSliceManagedBy == some ControllerName)).map
      (fun o => (o.Name, o.addresses))
      = [(str "webhook-svc-eks-proxy-d848703e-eks-proxy-72c8c8d7", [])] := by
  decide!

/-! ## C18: a second pass on the state left by the first -/

/-- The mutation of the restriction policy always writes the current selector of
the origin service as pod selector, also when that selector is empty. -/
theorem networkPolicyMutation_podSelector (serviceOrigin : Service)
    (peers : List NetworkPolicyPeer) (base o : NetworkPolicy)
    (h : networkPolicyMutation serviceOrigin peers base = .ok o) :
    o.Spec.PodSelector.MatchLabels = serviceOrigin.Spec.Selector := by
  unfold networkPolicyMutation at h
  cases hinst : GoMap.get serviceOrigin.Labels LabelAppInstance <;>
    simp only [hinst] at h <;>
    split at h <;>
    first
    | (simp at h; done)
    | (simp only [Except.ok.injEq] at h
       subst h
       rfl)

/-- The mutation of the shadow service keeps the stored selector when the
selector of the origin service is empty (the guard `Selector != nil`). -/
theorem proxyServiceMutation_keeps_selector (serviceOrigin : Service) (netRestriction : Bool)
    (base o : Service) (hsel : serviceOrigin.Spec.Selector = [])
    (h : proxyServiceMutation serviceOrigin netRestriction base = .ok o) :
    o.Spec.Selector = base.Spec.Selector := by
  unfold proxyServiceMutation at h
  cases hinst : GoMap.get serviceOrigin.Labels LabelAppInstance <;>
    cases netRestriction <;>
    simp only [hinst, hsel, ne_eq, not_true_eq_false, if_true, if_false,
      Bool.false_eq_true] at h <;>
    split at h <;>
    first
    | (simp at h; done)
    | (simp only [Except.ok.injEq] at h
       subst h
       rfl)

/-- C18 (code defect). With restriction on, a first pass of the CRD watcher on
the cluster of the scenario succeeds and writes the pod selector `app=webhook`
of the origin service into the shadow service and into the restriction policy,
and clears it on the origin service. A second pass on the state left by the
first also succeeds, keeps the pod selector of the shadow service, but updates
the restriction policy with the now empty selector of the origin service: the
pod selector of the policy is no longer the one the origin service had before
the first pass, and an engine-managed object has changed. -/
theorem second_pass_empties_policy_selector :
    Scenario.restrictingProxy.config.Proxy.Restricted = true ∧
    Scenario.originService.Spec.Selector = [(str "app", str "webhook")] ∧
    (Scenario.restrictingCrdController.Reconcile Scenario.crdRequest
      ⟨Scenario.cluster, []⟩).1 = .ok () ∧
    (Scenario.restrictingCrdController.Reconcile Scenario.crdRequest
      ⟨Scenario.afterFirstRestrictedPass, []⟩).1 = .ok () ∧
    Scenario.afterFirstRestrictedPass.Services.map (fun o => (o.Name, o.Spec.Selector))
      = [(str "webhook-svc", []),
         (str "webhook-svc-eks-proxy-d848703e", [(str "app", str "webhook")])] ∧
    Scenario.afterSecondRestrictedPass.Services.map (fun o => (o.Name, o.Spec.Selector))
      = [(str "webhook-svc", []),
         (str "webhook-svc-eks-proxy-d848703e", [(str "app", str "webhook")])] ∧
    Scenario.afterFirstRestrictedPass.NetworkPolicies.map
        (fun o => (o.Name, o.Spec.PodSelector.MatchLabels))
      = [(str "webhook-svc-eks-proxy-d848703e", [(str "app", str "webhook")])] ∧
    Scenario.afterSecondRestrictedPass.NetworkPolicies.map
        (fun o => (o.Name, o.Spec.PodSelector.MatchLabels))
      = [(str "webhook-svc-eks-proxy-d848703e", [])] ∧
    Scenario.afterSecondRestrictedPass.NetworkPolicies
      ≠ Scenario.afterFirstRestrictedPass.NetworkPolicies := by
  refine ⟨rfl, rfl, ?_, ?_, ?_, ?_, ?_, ?_, ?_⟩ <;> decide!

/-- Apart from the restriction policy, the second pass with restriction on leaves
every stored object as the first pass left it; with restriction off the second
pass leaves every stored object unchanged. -/
theorem second_pass_other_objects_unchanged :
    ({ Scenario.afterSecondRestrictedPass with requests := [], NetworkPolicies := [] } : ApiServer)
      = { Scenario.afterFirstRestrictedPass with requests := [], NetworkPolicies := [] } ∧
    ({ Scenario.afterSecondPass with requests := [] } : ApiServer)
      = { Scenario.afterFirstPass with requests := [] } := by
  decide!

end EksWebhookProxy
